import Mathlib

/-
  Verification of the libinput touchpad dispatcher core
  (evdev-mt-touchpad.c, provided as src/unnamed/part_000).

  The data model and the operations below are a shallow embedding of the C
  source: per-touch state lives in a `Touch` structure, the dispatcher state
  in `Tp`, and each C function becomes a Lean function on those structures.
  C unsigned integers are modelled as `Nat`, signed ones as `Int`, and C
  `double` values as `Rat` where only ratios of integers occur and as `Real`
  where `hypot` (a square root) is involved.  Functions from other
  compilation units of the repository (button/edge-scroll collaborators,
  `phys_get_direction`) are modelled as function-valued fields of `Tp`.
-/

namespace Touchpad

/-! ## Kernel event codes and constants

The `BTN_*` and `KEY_*` values are the fixed Linux evdev ABI values from
linux/input-event-codes.h (the header is not part of this repository). -/

def BTN_TOOL_FINGER : Nat := 325
def BTN_TOOL_QUINTTAP : Nat := 328
def BTN_TOUCH : Nat := 330
def BTN_TOOL_DOUBLETAP : Nat := 333
def BTN_TOOL_TRIPLETAP : Nat := 334
def BTN_TOOL_QUADTAP : Nat := 335

def KEY_TAB : Nat := 15
def KEY_LEFTCTRL : Nat := 29
def KEY_LEFTSHIFT : Nat := 42
def KEY_RIGHTSHIFT : Nat := 54
def KEY_LEFTALT : Nat := 56
def KEY_CAPSLOCK : Nat := 58
def KEY_F1 : Nat := 59
def KEY_RIGHTCTRL : Nat := 97
def KEY_RIGHTALT : Nat := 100
def KEY_LEFTMETA : Nat := 125
def KEY_RIGHTMETA : Nat := 126
def KEY_COMPOSE : Nat := 127
def KEY_FN : Nat := 464

/-- ms2us from libinput-util.h. -/
def ms2us (ms : Nat) : Nat := ms * 1000

/-- FAKE_FINGER_OVERFLOW = (1 << 7). -/
def FAKE_FINGER_OVERFLOW : Nat := 1 <<< 7

/-- THUMB_MOVE_TIMEOUT = ms2us(300). -/
def THUMB_MOVE_TIMEOUT : Nat := ms2us 300

/-- DEFAULT_KEYBOARD_ACTIVITY_TIMEOUT_1 = ms2us(200). -/
def DEFAULT_KEYBOARD_ACTIVITY_TIMEOUT_1 : Nat := ms2us 200

/-- DEFAULT_KEYBOARD_ACTIVITY_TIMEOUT_2 = ms2us(500). -/
def DEFAULT_KEYBOARD_ACTIVITY_TIMEOUT_2 : Nat := ms2us 500

/-- Modelled from the spec: TOUCHPAD_HISTORY_LENGTH is declared in
evdev-mt-touchpad.h, which is not part of src/; the spec requires a
capacity of at least 4, and 4 is the implementation choice used here. -/
def TOUCHPAD_HISTORY_LENGTH : Nat := 4

/-- glibc ffs(): one-based index of the least significant set bit of the
argument, 0 when the argument is 0.  Implemented with an explicit fuel
argument (the fuel `n` is always enough for argument `n`). -/
def ffsAux : Nat → Nat → Nat
  | 0, _ => 0
  | fuel + 1, n =>
    if n = 0 then 0
    else if n % 2 = 1 then 1
    else ffsAux fuel (n / 2) + 1

def ffs (n : Nat) : Nat := ffsAux n n

/-! ## Enumerated states (from evdev-mt-touchpad.h, as used in the source) -/

inductive TouchState
  | NONE
  | HOVERING
  | BEGIN
  | UPDATE
  | MAYBE_END
  | END
deriving Repr, DecidableEq, Inhabited

inductive PalmState
  | PALM_NONE
  | PALM_EDGE
  | PALM_TYPING
  | PALM_TRACKPOINT
  | PALM_TOOL_PALM
  | PALM_PRESSURE
  | PALM_TOUCH_SIZE
  | PALM_ARBITRATION
deriving Repr, DecidableEq, Inhabited

inductive ThumbState
  | THUMB_NO
  | THUMB_YES
  | THUMB_MAYBE
deriving Repr, DecidableEq, Inhabited

inductive ScrollMethod
  | NO_SCROLL
  | TWOFG
  | EDGE
deriving Repr, DecidableEq, Inhabited

/-- enum evdev_arbitration_state; the dispatcher only ever tests whether the
state equals ARBITRATION_NOT_ACTIVE. -/
inductive ArbitrationState
  | NOT_ACTIVE
  | IGNORE_ALL
  | IGNORE_RECT
deriving Repr, DecidableEq, Inhabited

/-- enum, field tp->quirks.msc_timestamp.state. -/
inductive MscJumpState
  | EXPECT_FIRST
  | EXPECT_DELAY
  | IGNORE
deriving Repr, DecidableEq, Inhabited

/-! ## Data model -/

structure Point where
  x : Int
  y : Int
deriving Repr, DecidableEq, Inhabited

structure HistoryPoint where
  point : Point
  time : Nat
deriving Repr, DecidableEq, Inhabited

/-- struct tp_touch::history, the motion-history ring buffer. -/
structure History where
  samples : List HistoryPoint
  index : Nat
  count : Nat
deriving Repr, DecidableEq, Inhabited

structure PalmInfo where
  state : PalmState
  first : Point
  time : Nat
deriving Repr, DecidableEq, Inhabited

structure ThumbInfo where
  state : ThumbState
  initial : Point
  first_touch_time : Nat
deriving Repr, DecidableEq, Inhabited

structure PinnedInfo where
  is_pinned : Bool
  center : Point
deriving Repr, DecidableEq, Inhabited

/-- struct tp_touch::speed; last_speed is a C double (mm/s). -/
structure SpeedInfo where
  last_speed : ℝ
  exceeded_count : Nat
deriving Inhabited

/-- struct tp_touch::jumps; last_delta_mm is a C double. -/
structure JumpsInfo where
  last_delta_mm : ℝ
deriving Inhabited

structure TouchHysteresis where
  center : Point
  x_motion_history : Nat
deriving Repr, DecidableEq, Inhabited

structure TapInfo where
  is_thumb : Bool
  is_palm : Bool
deriving Repr, DecidableEq, Inhabited

/-- struct tp_touch.  The default value (Inhabited) has state TOUCH_NONE,
which is what reading past the end of the touches array yields in the
embedding. -/
structure Touch where
  state : TouchState := .NONE
  point : Point := default
  pressure : Int := 0
  major : Int := 0
  minor : Int := 0
  is_tool_palm : Bool := false
  dirty : Bool := false
  has_ended : Bool := false
  was_down : Bool := false
  time : Nat := 0
  history : History := default
  palm : PalmInfo := default
  thumb : ThumbInfo := default
  pinned : PinnedInfo := default
  speed : SpeedInfo := default
  jumps : JumpsInfo := default
  hysteresis : TouchHysteresis := default
  tap : TapInfo := default
  quirks_reset_motion_history : Bool := false
deriving Inhabited

/-- The TOUCHPAD_EVENT_* queued-flags bitmask, one Bool per flag. -/
structure Queued where
  motion : Bool := false
  otheraxis : Bool := false
  button_press : Bool := false
  timestamp : Bool := false
deriving Repr, DecidableEq, Inhabited

def TOUCHPAD_EVENT_NONE : Queued := {}

/-- struct tp_dispatch::dwt. -/
structure DwtInfo where
  dwt_enabled : Bool := false
  keyboard_active : Bool := false
  keyboard_last_press_time : Nat := 0
  key_mask : Finset Nat := ∅
  mod_mask : Finset Nat := ∅
deriving Inhabited

/-- struct msc_timestamp (tp->quirks.msc_timestamp). -/
structure MscTimestamp where
  state : MscJumpState := .EXPECT_FIRST
  interval : Nat := 0
  now : Nat := 0
deriving Repr, DecidableEq, Inhabited

/-- struct tp_dispatch together with the device fields the dispatcher
reads.  Fields of function type stand for collaborator functions that live
in other compilation units of the repository (buttons, edge scrolling,
direction helper); they are parameters of the model. -/
structure Tp where
  touches : List Touch := []
  nfingers_down : Nat := 0
  old_nfingers_down : Nat := 0
  num_slots : Nat := 0
  has_mt : Bool := true
  semi_mt : Bool := false
  slot : Nat := 0
  fake_touches : Nat := 0
  queued : Queued := {}
  buttons_state : Nat := 0
  buttons_old_state : Nat := 0
  buttons_is_clickpad : Bool := false
  hysteresis_enabled : Bool := false
  hysteresis_last_motion_time : Nat := 0
  -- device: resolution in units/mm, model flags
  res_x : ℚ := 1
  res_y : ℚ := 1
  model_wacom : Bool := false
  model_test_device : Bool := false
  model_lenovo_t450 : Bool := false
  model_synaptics_serial : Bool := false
  -- hover resolver configuration
  pressure_use_pressure : Bool := false
  pressure_high : Int := 0
  pressure_low : Int := 0
  touch_size_use_touch_size : Bool := false
  touch_size_high : Int := 0
  touch_size_low : Int := 0
  -- palm classifier configuration and state
  palm_use_pressure : Bool := false
  palm_pressure_threshold : Int := 0
  palm_use_size : Bool := false
  palm_size_threshold : Int := 0
  palm_use_mt_tool : Bool := false
  palm_monitor_trackpoint : Bool := false
  palm_trackpoint_active : Bool := false
  palm_trackpoint_last_event_time : Nat := 0
  palm_left_edge : Int := 0
  palm_right_edge : Int := 0
  palm_upper_edge : Int := 0
  -- thumb classifier configuration
  thumb_detect_thumbs : Bool := false
  thumb_upper_thumb_line : Int := 0
  thumb_lower_thumb_line : Int := 0
  thumb_use_pressure : Bool := false
  thumb_pressure_threshold : Int := 0
  thumb_use_size : Bool := false
  thumb_size_threshold : Int := 0
  scroll_method : ScrollMethod := .TWOFG
  dwt : DwtInfo := {}
  arbitration_state : ArbitrationState := .NOT_ACTIVE
  quirks_nonmotion_event_count : Nat := 0
  msc : MscTimestamp := {}
  -- collaborator functions from other compilation units
  button_touch_active : Touch → Bool := fun _ => true
  edge_scroll_touch_active : Touch → Bool := fun _ => true
  button_is_inside_softbutton_area : Touch → Bool := fun _ => false
  touch_get_edge_is_right : Touch → Bool := fun _ => false
  phys_get_direction : ℚ × ℚ → Nat := fun _ => 0
deriving Inhabited

/-- tp->ntouches is the length of the touches array. -/
def Tp.ntouches (tp : Tp) : Nat := tp.touches.length

/-- tp_get_touch; reading out of range yields the default touch (state
TOUCH_NONE), mirroring that the C code never indexes out of range. -/
def tp_get_touch (tp : Tp) (i : Nat) : Touch := tp.touches.getD i default

def tp_set_touch (tp : Tp) (i : Nat) (t : Touch) : Tp :=
  { tp with touches := tp.touches.set i t }

/-! ## Fake-finger tracker (C2 of the spec) -/

/-- tp_fake_finger_count (part_000 lines 240-255).  The kernel-bug log for
several simultaneous tool bits does not change the result and is not
modelled. -/
def tp_fake_finger_count (tp : Tp) : Nat :=
  if tp.fake_touches &&& FAKE_FINGER_OVERFLOW ≠ 0 then FAKE_FINGER_OVERFLOW
  else ffs (tp.fake_touches >>> 1)

/-- tp_fake_finger_is_touching (lines 257-261). -/
def tp_fake_finger_is_touching (tp : Tp) : Bool :=
  tp.fake_touches &&& 1 ≠ 0

/-- tp_fake_finger_set (lines 263-302). `Nat.ldiff a b` is `a &= ~b`. -/
def tp_fake_finger_set (tp : Tp) (code : Nat) (is_press : Bool) : Tp :=
  if code = BTN_TOUCH then
    let tp := if ¬ is_press then
        { tp with fake_touches := tp.fake_touches.ldiff FAKE_FINGER_OVERFLOW }
      else tp
    if is_press then
      { tp with fake_touches :=
          (tp.fake_touches.ldiff FAKE_FINGER_OVERFLOW) ||| (1 <<< 0) }
    else
      { tp with fake_touches := tp.fake_touches.ldiff (1 <<< 0) }
  else if code = BTN_TOOL_FINGER ∨ code = BTN_TOOL_DOUBLETAP ∨
          code = BTN_TOOL_TRIPLETAP ∨ code = BTN_TOOL_QUADTAP then
    let shift : Nat :=
      if code = BTN_TOOL_FINGER then 1 else code - BTN_TOOL_DOUBLETAP + 2
    if is_press then
      { tp with fake_touches :=
          (tp.fake_touches.ldiff FAKE_FINGER_OVERFLOW) ||| (1 <<< shift) }
    else
      { tp with fake_touches := tp.fake_touches.ldiff (1 <<< shift) }
  else if code = BTN_TOOL_QUINTTAP then
    if is_press then { tp with fake_touches := tp.fake_touches ||| FAKE_FINGER_OVERFLOW }
    else tp
  else tp

/-! ## Touch lifecycle operations (lines 304-444) -/

/-- tp_motion_history_reset (lines 221-225). -/
def tp_motion_history_reset (t : Touch) : Touch :=
  { t with history.count := 0 }

/-- The fresh hovering touch built by tp_new_touch (lines 327-337). -/
def tp_new_touch_hovering (t : Touch) (time : Nat) : Touch :=
  { tp_motion_history_reset t with
    dirty := true
    has_ended := false
    was_down := false
    palm.state := .PALM_NONE
    state := .HOVERING
    pinned.is_pinned := false
    time := time
    speed.last_speed := 0
    speed.exceeded_count := 0
    hysteresis.x_motion_history := 0 }

/-- tp_new_touch (lines 304-339).  The kernel-bug log in the MAYBE_END
branch is not modelled. -/
def tp_new_touch (tp : Tp) (i : Nat) (time : Nat) : Tp :=
  let t := tp_get_touch tp i
  if t.state = .BEGIN ∨ t.state = .UPDATE ∨ t.state = .HOVERING then tp
  else if t.state = .MAYBE_END then
    { tp_set_touch tp i { t with state := .UPDATE, has_ended := false } with
      nfingers_down := tp.nfingers_down + 1 }
  else
    { tp_set_touch tp i (tp_new_touch_hovering t time) with
      queued.motion := true }

/-- tp_begin_touch (lines 341-357).  Callers only invoke it on touches in
state TOUCH_HOVERING (or TOUCH_NONE for no slot); the body is
unconditional, as in the source. -/
def tp_begin_touch (tp : Tp) (i : Nat) (time : Nat) : Tp :=
  let t := tp_get_touch tp i
  let t := { t with
    dirty := true
    state := .BEGIN
    time := time
    was_down := true
    palm.time := time
    thumb.state := .THUMB_MAYBE
    thumb.first_touch_time := time
    tap.is_thumb := false
    tap.is_palm := false
    speed.exceeded_count := 0 }
  { tp_set_touch tp i t with
    nfingers_down := tp.nfingers_down + 1
    hysteresis_last_motion_time := time }

/-- tp_maybe_end_touch (lines 367-396).  The library-bug log in the
TOUCH_END case is not modelled (the operation is a no-op there). -/
def tp_maybe_end_touch (tp : Tp) (i : Nat) (_time : Nat) : Tp :=
  let t := tp_get_touch tp i
  match t.state with
  | .NONE => tp
  | .MAYBE_END => tp
  | .END => tp
  | .HOVERING => tp_set_touch tp i { t with state := .NONE, dirty := true }
  | .BEGIN =>
      { tp_set_touch tp i { t with state := .MAYBE_END, dirty := true } with
        nfingers_down := tp.nfingers_down - 1 }
  | .UPDATE =>
      { tp_set_touch tp i { t with state := .MAYBE_END, dirty := true } with
        nfingers_down := tp.nfingers_down - 1 }

/-- tp_recover_ended_touch (lines 402-409); callers only invoke it on
touches in state TOUCH_MAYBE_END. -/
def tp_recover_ended_touch (tp : Tp) (i : Nat) : Tp :=
  let t := tp_get_touch tp i
  { tp_set_touch tp i { t with state := .UPDATE, dirty := true } with
    nfingers_down := tp.nfingers_down + 1 }

/-- tp_end_touch (lines 415-434).  When the touch is not in
TOUCH_MAYBE_END only a library-bug message is logged (not modelled) and
the state is returned unchanged. -/
def tp_end_touch (tp : Tp) (i : Nat) (time : Nat) : Tp :=
  let t := tp_get_touch tp i
  if t.state ≠ .MAYBE_END then tp
  else
    let t := { t with
      dirty := true
      palm.state := .PALM_NONE
      state := .END
      pinned.is_pinned := false
      time := time
      palm.time := 0
      speed.exceeded_count := 0 }
    { tp_set_touch tp i t with queued.motion := true }

/-- tp_end_sequence (lines 439-444). -/
def tp_end_sequence (tp : Tp) (i : Nat) (time : Nat) : Tp :=
  let t := tp_get_touch tp i
  tp_maybe_end_touch (tp_set_touch tp i { t with has_ended := true }) i time

/-- The per-touch commit of tp_post_process_state (lines 1885-1900). -/
def tp_post_process_touch (t : Touch) : Touch :=
  if ¬ t.dirty then t
  else
    let t :=
      if t.state = .END then
        if t.has_ended then { t with state := .NONE }
        else { t with state := .HOVERING }
      else if t.state = .BEGIN then { t with state := .UPDATE }
      else t
    { t with dirty := false }

/-- tp_post_process_state (lines 1880-1908).  The tap collaborator call
tp_tap_post_process_state is outside this compilation unit and is not
modelled. -/
def tp_post_process_state (tp : Tp) (_time : Nat) : Tp :=
  { tp with
    touches := tp.touches.map tp_post_process_touch
    old_nfingers_down := tp.nfingers_down
    buttons_old_state := tp.buttons_state
    queued := TOUCHPAD_EVENT_NONE }

/-! ## Physical-unit helpers -/

/-- device_delta(a, b): component-wise difference a - b as float coords. -/
def device_delta (a b : Point) : ℚ × ℚ :=
  (((a.x - b.x : Int) : ℚ), ((a.y - b.y : Int) : ℚ))

/-- Modelled from the spec: tp_phys_delta converts a device-unit delta to
physical millimetres; the spec gives the resolution in units/mm, so the
conversion divides each axis by its resolution (the helper itself lives in
evdev-mt-touchpad.h, outside src/). -/
def tp_phys_delta (tp : Tp) (d : ℚ × ℚ) : ℚ × ℚ :=
  (d.1 / tp.res_x, d.2 / tp.res_y)

/-- Modelled from the spec: evdev_device_unit_delta_to_mm divides a
device-unit delta by the per-axis resolution in units/mm (the helper lives
in evdev.h, outside src/). -/
def evdev_device_unit_delta_to_mm (tp : Tp) (d : Point) : ℚ × ℚ :=
  ((d.x : ℚ) / tp.res_x, (d.y : ℚ) / tp.res_y)

/-- length_in_mm / hypot: Euclidean length of a physical delta.  C doubles
are modelled as reals. -/
noncomputable def length_in_mm (mm : ℚ × ℚ) : ℝ :=
  Real.sqrt ((mm.1 : ℝ) ^ 2 + (mm.2 : ℝ) ^ 2)

/-! ## Thumb classifier (lines 1154-1244 and 1585-1629) -/

/-- The rule-C loop of tp_thumb_detect (lines 1194-1205): index of the
first touch in array order whose state is BEGIN or UPDATE and whose y
coordinate is below the upper thumb line. -/
def tp_thumb_find_other (touches : List Touch) (upper : Int) : Option Nat :=
  (touches.enum.find? (fun p =>
    decide ((p.2.state = .BEGIN ∨ p.2.state = .UPDATE) ∧ p.2.point.y > upper))).map
    (fun p => p.1)

/-- Rule C of tp_thumb_detect (lines 1186-1206): if the processed touch
(slot i, already carrying the possibly-updated thumb.initial) is below the
upper thumb line together with another active touch, both are demoted to
THUMB_NO — the bystander only when it is still MAYBE.  The source loop
does not skip other == t, and the slot-indexed state passing reproduces
that aliasing. -/
def tp_thumb_rule_c (tp2 : Tp) (i : Nat) : Tp :=
  let t1 := tp_get_touch tp2 i
  if t1.point.y > tp2.thumb_upper_thumb_line ∧ tp2.nfingers_down > 1 then
    match tp_thumb_find_other tp2.touches tp2.thumb_upper_thumb_line with
    | none => tp2
    | some j =>
      let tpA := tp_set_touch tp2 i { t1 with thumb.state := .THUMB_NO }
      let other := tp_get_touch tpA j
      if other.thumb.state = .THUMB_MAYBE then
        tp_set_touch tpA j { other with thumb.state := .THUMB_NO }
      else tpA
  else tp2

open Classical in
/-- Rule D of tp_thumb_detect (lines 1208-1225): promotion of the
processed touch to THUMB_YES by pressure, by touch size, or by lingering
below the lower thumb line. -/
noncomputable def tp_thumb_rule_d (tp3 : Tp) (i time : Nat) : Tp :=
  let tcur := tp_get_touch tp3 i
  if tp3.thumb_use_pressure ∧ tcur.pressure > tp3.thumb_pressure_threshold then
    tp_set_touch tp3 i { tcur with thumb.state := .THUMB_YES }
  else if tp3.thumb_use_size ∧ tcur.major > tp3.thumb_size_threshold ∧
          (tcur.minor : ℚ) < (tp3.thumb_size_threshold : ℚ) * (6 / 10) then
    tp_set_touch tp3 i { tcur with thumb.state := .THUMB_YES }
  else if tcur.point.y > tp3.thumb_lower_thumb_line ∧
          tp3.scroll_method ≠ .EDGE ∧
          tcur.thumb.first_touch_time + THUMB_MOVE_TIMEOUT < time then
    tp_set_touch tp3 i { tcur with thumb.state := .THUMB_YES }
  else tp3

open Classical in
/-- tp_thumb_detect (lines 1154-1244): the entry guard and rules A and B,
followed by rules C and D.  The state-change debug log is not
modelled. -/
noncomputable def tp_thumb_detect (tp : Tp) (i : Nat) (time : Nat) : Tp :=
  let t := tp_get_touch tp i
  if ¬ tp.thumb_detect_thumbs ∨ t.thumb.state ≠ .THUMB_MAYBE then tp
  else if t.point.y < tp.thumb_upper_thumb_line then
    tp_set_touch tp i { t with thumb.state := .THUMB_NO }
  else
    let t1 := if t.state = .BEGIN then { t with thumb.initial := t.point } else t
    if t.state = .UPDATE ∧
       length_in_mm (tp_phys_delta tp (device_delta t.point t.thumb.initial)) > 7 then
      tp_set_touch tp i { t1 with thumb.state := .THUMB_NO }
    else
      tp_thumb_rule_d (tp_thumb_rule_c (tp_set_touch tp i t1) i) i time

/-- The first/second search loop of tp_detect_thumb_while_moving (lines
1594-1606): walk the touches in order, skipping NONE and HOVERING;
a touch in state BEGIN becomes `second`, any other becomes `first`;
stop as soon as both are assigned. -/
def tp_thumb_moving_loop :
    List (Nat × Touch) → Option Nat → Option Nat → Option Nat × Option Nat
  | [], f, s => (f, s)
  | p :: rest, f, s =>
    if p.2.state = .NONE ∨ p.2.state = .HOVERING then
      tp_thumb_moving_loop rest f s
    else
      let f := if p.2.state ≠ .BEGIN then some p.1 else f
      let s := if p.2.state = .BEGIN then some p.1 else s
      if f.isSome ∧ s.isSome then (f, s) else tp_thumb_moving_loop rest f s

/-- tp_detect_thumb_while_moving (lines 1585-1629).  The source asserts
that both `first` and `second` were found; the spec flags this as an open
question and asks implementers to guard defensively, so the embedding
returns the state unchanged when either is missing. -/
def tp_detect_thumb_while_moving (tp : Tp) : Tp :=
  match tp_thumb_moving_loop tp.touches.enum none none with
  | (some fi, some si) =>
    let first := tp_get_touch tp fi
    let second := tp_get_touch tp si
    let distance : Point :=
      ⟨|first.point.x - second.point.x|, |first.point.y - second.point.y|⟩
    let mm := evdev_device_unit_delta_to_mm tp distance
    if tp.scroll_method = .TWOFG ∧ mm.1 ≤ 25 ∧ mm.2 ≤ 15 then tp
    else tp_set_touch tp si { second with thumb.state := .THUMB_YES }
  | _ => tp

/-- The call gate for the speed-based thumb rule in tp_process_state
(lines 1854-1859): tp_detect_thumb_while_moving runs only when a touch
began this frame, exactly two fingers are down and the highest
speed.exceeded_count seen this frame is above 5. -/
def tp_process_state_speed_thumb (tp : Tp) (have_new_touch : Bool)
    (speed_exceeded_count : Nat) : Tp :=
  if have_new_touch ∧ tp.nfingers_down = 2 ∧ speed_exceeded_count > 5 then
    tp_detect_thumb_while_moving tp
  else tp

/-! ## Palm classifier (lines 765-1140) -/

/-- Direction bitmask values.  Modelled from the spec: the enum lives in
libinput-util.h (the copy under src/ is trimmed); only the relative
bit positions matter here. -/
def DIR_N : Nat := 1
def DIR_NE : Nat := 2
def DIR_E : Nat := 4
def DIR_SE : Nat := 8
def DIR_S : Nat := 16
def DIR_SW : Nat := 32
def DIR_W : Nat := 64
def DIR_NW : Nat := 128

/-- tp_touch_active (lines 765-774); the last two conjuncts are
collaborator functions from the buttons and edge-scroll units. -/
def tp_touch_active (tp : Tp) (t : Touch) : Bool :=
  (t.state == .BEGIN || t.state == .UPDATE) &&
  t.palm.state == .PALM_NONE &&
  !t.pinned.is_pinned &&
  t.thumb.state != .THUMB_YES &&
  tp.button_touch_active t &&
  tp.edge_scroll_touch_active t

/-- tp_palm_was_in_side_edge (lines 776-781). -/
def tp_palm_was_in_side_edge (tp : Tp) (t : Touch) : Bool :=
  decide (t.palm.first.x < tp.palm_left_edge ∨ t.palm.first.x > tp.palm_right_edge)

/-- tp_palm_was_in_top_edge (lines 783-787). -/
def tp_palm_was_in_top_edge (tp : Tp) (t : Touch) : Bool :=
  decide (t.palm.first.y < tp.palm_upper_edge)

/-- tp_palm_in_side_edge (lines 789-794). -/
def tp_palm_in_side_edge (tp : Tp) (t : Touch) : Bool :=
  decide (t.point.x < tp.palm_left_edge ∨ t.point.x > tp.palm_right_edge)

/-- tp_palm_in_top_edge (lines 796-800). -/
def tp_palm_in_top_edge (tp : Tp) (t : Touch) : Bool :=
  decide (t.point.y < tp.palm_upper_edge)

/-- tp_palm_in_edge (lines 802-806). -/
def tp_palm_in_edge (tp : Tp) (t : Touch) : Bool :=
  tp_palm_in_side_edge tp t || tp_palm_in_top_edge tp t

/-- tp_palm_detect_dwt_triggered (lines 823-853). -/
def tp_palm_detect_dwt_triggered (tp : Tp) (i : Nat) (_time : Nat) : Bool × Tp :=
  let t := tp_get_touch tp i
  if tp.dwt.dwt_enabled ∧ tp.dwt.keyboard_active ∧ t.state = .BEGIN then
    (true, tp_set_touch tp i { t with palm.state := .PALM_TYPING, palm.first := t.point })
  else if ¬ tp.dwt.keyboard_active ∧ t.state = .UPDATE ∧
          t.palm.state = .PALM_TYPING then
    if t.palm.time = 0 ∨ t.palm.time > tp.dwt.keyboard_last_press_time then
      (false, tp_set_touch tp i { t with palm.state := .PALM_NONE })
    else (false, tp)
  else (false, tp)

/-- tp_palm_detect_trackpoint_triggered (lines 855-881). -/
def tp_palm_detect_trackpoint_triggered (tp : Tp) (i : Nat) (_time : Nat) : Bool × Tp :=
  let t := tp_get_touch tp i
  if ¬ tp.palm_monitor_trackpoint then (false, tp)
  else if t.palm.state = .PALM_NONE ∧ t.state = .BEGIN ∧ tp.palm_trackpoint_active then
    (true, tp_set_touch tp i { t with palm.state := .PALM_TRACKPOINT })
  else if t.palm.state = .PALM_TRACKPOINT ∧ t.state = .UPDATE ∧
          ¬ tp.palm_trackpoint_active then
    if t.palm.time = 0 ∨ t.palm.time > tp.palm_trackpoint_last_event_time then
      (false, tp_set_touch tp i { t with palm.state := .PALM_NONE })
    else (false, tp)
  else (false, tp)

/-- tp_palm_detect_tool_triggered (lines 883-903). -/
def tp_palm_detect_tool_triggered (tp : Tp) (i : Nat) (_time : Nat) : Bool × Tp :=
  let t := tp_get_touch tp i
  if ¬ tp.palm_use_mt_tool then (false, tp)
  else if t.palm.state ≠ .PALM_NONE ∧ t.palm.state ≠ .PALM_TOOL_PALM then (false, tp)
  else if t.palm.state = .PALM_NONE ∧ t.is_tool_palm then
    (true, tp_set_touch tp i { t with palm.state := .PALM_TOOL_PALM })
  else if t.palm.state = .PALM_TOOL_PALM ∧ ¬ t.is_tool_palm then
    (false, tp_set_touch tp i { t with palm.state := .PALM_NONE })
  else (decide (t.palm.state = .PALM_TOOL_PALM), tp)

/-- tp_palm_detect_move_out_of_edge (lines 905-930); phys_get_direction
is a collaborator function (libinput-util.h is trimmed under src/). -/
def tp_palm_detect_move_out_of_edge (tp : Tp) (i : Nat) (time : Nat) : Bool :=
  let t := tp_get_touch tp i
  let PALM_TIMEOUT := ms2us 200
  if time < t.palm.time + PALM_TIMEOUT ∧ ¬ (tp_palm_in_edge tp t = true) then
    let directions : Nat :=
      if tp_palm_was_in_side_edge tp t then
        DIR_NE ||| DIR_E ||| DIR_SE ||| DIR_SW ||| DIR_W ||| DIR_NW
      else if tp_palm_was_in_top_edge tp t then DIR_S ||| DIR_SE ||| DIR_SW
      else 0
    if directions ≠ 0 then
      let delta := device_delta t.point t.palm.first
      let dirs := tp.phys_get_direction (tp_phys_delta tp delta)
      decide (dirs &&& directions ≠ 0 ∧ dirs.ldiff directions = 0)
    else false
  else false

/-- tp_palm_detect_multifinger (lines 932-959). -/
def tp_palm_detect_multifinger (tp : Tp) (i : Nat) (_time : Nat) : Bool :=
  if tp.nfingers_down < 2 then false
  else
    tp.touches.enum.any (fun p =>
      decide (p.1 ≠ i) && tp_touch_active tp p.2 && p.2.palm.state == .PALM_NONE)

/-- tp_palm_detect_touch_size_triggered (lines 961-985).  The size-exceeded
debug log is not modelled. -/
def tp_palm_detect_touch_size_triggered (tp : Tp) (i : Nat) (_time : Nat) : Bool × Tp :=
  let t := tp_get_touch tp i
  if ¬ tp.palm_use_size then (false, tp)
  else if t.palm.state ≠ .PALM_NONE ∧ t.palm.state ≠ .PALM_TOUCH_SIZE then (false, tp)
  else if t.major > tp.palm_size_threshold ∨ t.minor > tp.palm_size_threshold then
    (true, tp_set_touch tp i { t with palm.state := .PALM_TOUCH_SIZE })
  else (false, tp)

/-- tp_palm_detect_edge (lines 987-1034); the softbutton-area test and the
right-edge test are collaborator functions from the buttons unit. -/
def tp_palm_detect_edge (tp : Tp) (i : Nat) (time : Nat) : Bool × Tp :=
  let t := tp_get_touch tp i
  if t.palm.state = .PALM_EDGE then
    if tp_palm_detect_multifinger tp i time then
      (false, tp_set_touch tp i { t with palm.state := .PALM_NONE })
    else if tp_palm_detect_move_out_of_edge tp i time then
      (false, tp_set_touch tp i { t with palm.state := .PALM_NONE })
    else (false, tp)
  else if tp_palm_detect_multifinger tp i time then (false, tp)
  else if t.state ≠ .BEGIN ∨ ¬ (tp_palm_in_edge tp t = true) then (false, tp)
  else if tp.buttons_is_clickpad ∧ tp.button_is_inside_softbutton_area t then
    (false, tp)
  else if tp.touch_get_edge_is_right t then (false, tp)
  else
    (true, tp_set_touch tp i
      { t with palm.state := .PALM_EDGE, palm.time := time, palm.first := t.point })

/-- tp_palm_detect_pressure_triggered (lines 1036-1052). -/
def tp_palm_detect_pressure_triggered (tp : Tp) (i : Nat) (_time : Nat) : Bool × Tp :=
  let t := tp_get_touch tp i
  if ¬ tp.palm_use_pressure then (false, tp)
  else if t.palm.state ≠ .PALM_NONE ∧ t.palm.state ≠ .PALM_PRESSURE then (false, tp)
  else if t.pressure > tp.palm_pressure_threshold then
    (true, tp_set_touch tp i { t with palm.state := .PALM_PRESSURE })
  else (decide (t.palm.state = .PALM_PRESSURE), tp)

/-- tp_palm_detect_arbitration_triggered (lines 1054-1065).  Note: no
guard on the touch's current palm state. -/
def tp_palm_detect_arbitration_triggered (tp : Tp) (i : Nat) (_time : Nat) : Bool × Tp :=
  let t := tp_get_touch tp i
  if tp.arbitration_state = .NOT_ACTIVE then (false, tp)
  else (true, tp_set_touch tp i { t with palm.state := .PALM_ARBITRATION })

/-- tp_palm_detect (lines 1067-1140): run the detectors in source order,
stopping at the first that reports true; the pressure detector runs first
and again last.  Each detector may mutate the touch even when it reports
false, and the chain continues on the mutated state, as in the source.
The out-label only logs the state change and is not modelled. -/
def tp_palm_detect (tp : Tp) (i : Nat) (time : Nat) : Tp :=
  let r1 := tp_palm_detect_pressure_triggered tp i time
  if r1.1 then r1.2 else
  let r2 := tp_palm_detect_arbitration_triggered r1.2 i time
  if r2.1 then r2.2 else
  let r3 := tp_palm_detect_dwt_triggered r2.2 i time
  if r3.1 then r3.2 else
  let r4 := tp_palm_detect_trackpoint_triggered r3.2 i time
  if r4.1 then r4.2 else
  let r5 := tp_palm_detect_tool_triggered r4.2 i time
  if r5.1 then r5.2 else
  let r6 := tp_palm_detect_touch_size_triggered r5.2 i time
  if r6.1 then r6.2 else
  let r7 := tp_palm_detect_edge r6.2 i time
  if r7.1 then r7.2 else
  (tp_palm_detect_pressure_triggered r7.2 i time).2

/-! ## Hover resolver (lines 1246-1443) -/

/-- Loop body of the first loop of tp_unhover_pressure (lines 1258-1293).
The accumulator carries the dispatcher state and real_fingers_down. -/
def tp_unhover_pressure_slot (nfake time : Nat) (acc : Tp × Nat) (i : Nat) : Tp × Nat :=
  let tp := acc.1
  let real := acc.2
  let t := tp_get_touch tp i
  if t.state = .NONE then acc
  else
    let tp :=
      if t.dirty then
        if t.state = .HOVERING then
          if t.pressure ≥ tp.pressure_high then
            tp_begin_touch (tp_set_touch tp i (tp_motion_history_reset t)) i time
          else tp
        else if nfake ≤ tp.num_slots ∨ tp.num_slots = 1 then
          if t.pressure < tp.pressure_low then tp_maybe_end_touch tp i time
          else tp
        else tp
      else tp
    let t2 := tp_get_touch tp i
    (tp, if t2.state = .BEGIN ∨ t2.state = .UPDATE then real + 1 else real)

/-- The begin-hovering loops of tp_unhover_pressure (lines 1303-1314) and
tp_unhover_fake_touches (lines 1399-1409): begin every hovering touch
until nfingers_down reaches the fake count.  The pressure variant resets
the motion history before each begin (line 1307); the fake-finger
variant does not (line 1403); the `reset` flag selects between the two. -/
def tp_unhover_begin_hovering (time nfake : Nat) (reset : Bool) :
    Tp → List Nat → Tp
  | tp, [] => tp
  | tp, i :: rest =>
    let t := tp_get_touch tp i
    if t.state = .HOVERING then
      let tp2 :=
        if reset then
          tp_begin_touch (tp_set_touch tp i (tp_motion_history_reset t)) i time
        else tp_begin_touch tp i time
      if tp2.nfingers_down ≥ nfake then tp2
      else tp_unhover_begin_hovering time nfake reset tp2 rest
    else tp_unhover_begin_hovering time nfake reset tp rest

/-- The reverse end loop of tp_unhover_pressure (lines 1316-1332). -/
def tp_unhover_pressure_end_loop (time nfake real : Nat) : Tp → List Nat → Tp
  | tp, [] => tp
  | tp, i :: rest =>
    let t := tp_get_touch tp i
    if t.state = .HOVERING ∨ t.state = .NONE ∨ t.state = .MAYBE_END then
      tp_unhover_pressure_end_loop time nfake real tp rest
    else
      let tp2 := tp_maybe_end_touch tp i time
      if real > 0 ∧ tp2.nfingers_down = nfake then tp2
      else tp_unhover_pressure_end_loop time nfake real tp2 rest

/-- tp_unhover_pressure (lines 1246-1333).  The begin/end debug logs are
not modelled. -/
def tp_unhover_pressure (tp : Tp) (time : Nat) : Tp :=
  let nfake0 := tp_fake_finger_count tp
  let nfake := if nfake0 = FAKE_FINGER_OVERFLOW then 0 else nfake0
  let acc := (List.range tp.num_slots).foldl (tp_unhover_pressure_slot nfake time) (tp, 0)
  let tp1 := acc.1
  let real := acc.2
  if nfake ≤ tp1.num_slots ∨ tp1.nfingers_down = 0 then tp1
  else
    let tp2 :=
      if real > 0 then
        tp_unhover_begin_hovering time nfake true tp1 (List.range tp1.ntouches)
      else tp1
    if tp2.nfingers_down > nfake ∨ real = 0 then
      tp_unhover_pressure_end_loop time nfake real tp2 (List.range tp2.ntouches).reverse
    else tp2

/-- Loop body of tp_unhover_size (lines 1346-1373). -/
def tp_unhover_size_slot (time : Nat) (tp : Tp) (i : Nat) : Tp :=
  let t := tp_get_touch tp i
  let low := tp.touch_size_low
  let high := tp.touch_size_high
  if t.state = .NONE then tp
  else if ¬ t.dirty then tp
  else if t.state = .HOVERING then
    if (t.major > high ∧ t.minor > low) ∨ (t.major > low ∧ t.minor > high) then
      tp_begin_touch (tp_set_touch tp i (tp_motion_history_reset t)) i time
    else tp
  else if t.major < low ∨ t.minor < low then tp_maybe_end_touch tp i time
  else tp

/-- tp_unhover_size (lines 1336-1374). -/
def tp_unhover_size (tp : Tp) (time : Nat) : Tp :=
  (List.range tp.num_slots).foldl (tp_unhover_size_slot time) tp

/-- The reverse end loop of tp_unhover_fake_touches (lines 1415-1430). -/
def tp_unhover_fake_end_loop (time nfake : Nat) : Tp → List Nat → Tp
  | tp, [] => tp
  | tp, i :: rest =>
    let t := tp_get_touch tp i
    if t.state = .HOVERING ∨ t.state = .NONE then
      tp_unhover_fake_end_loop time nfake tp rest
    else
      let tp2 := tp_maybe_end_touch tp i time
      if tp_fake_finger_is_touching tp2 ∧ tp2.nfingers_down = nfake then tp2
      else tp_unhover_fake_end_loop time nfake tp2 rest

/-- tp_unhover_fake_touches (lines 1376-1431). -/
def tp_unhover_fake_touches (tp : Tp) (time : Nat) : Tp :=
  if tp.fake_touches = 0 ∧ tp.nfingers_down = 0 then tp
  else
    let nfake := tp_fake_finger_count tp
    if nfake = FAKE_FINGER_OVERFLOW then tp
    else if tp.nfingers_down = nfake ∧
            ((tp.nfingers_down = 0 ∧ ¬ (tp_fake_finger_is_touching tp = true)) ∨
             (tp.nfingers_down > 0 ∧ tp_fake_finger_is_touching tp = true)) then tp
    else
      let tp1 :=
        if tp_fake_finger_is_touching tp ∧ tp.nfingers_down < nfake then
          tp_unhover_begin_hovering time nfake false tp (List.range tp.ntouches)
        else tp
      if tp1.nfingers_down > nfake ∨ ¬ (tp_fake_finger_is_touching tp1 = true) then
        tp_unhover_fake_end_loop time nfake tp1 (List.range tp1.ntouches).reverse
      else tp1

/-- tp_unhover_touches (lines 1433-1443). -/
def tp_unhover_touches (tp : Tp) (time : Nat) : Tp :=
  if tp.pressure_use_pressure then tp_unhover_pressure tp time
  else if tp.touch_size_use_touch_size then tp_unhover_size tp time
  else tp_unhover_fake_touches tp time

/-- tp_need_motion_history_reset (lines 1489-1521); returns the flag and
the state with the Lenovo T450 quirk bookkeeping applied. -/
def tp_need_motion_history_reset (tp : Tp) : Bool × Tp :=
  if tp.nfingers_down ≠ tp.old_nfingers_down then (true, tp)
  else if tp.model_lenovo_t450 then
    let r :=
      if tp.queued.motion then
        let r2 :=
          if tp.quirks_nonmotion_event_count > 10 then
            (true, { tp with queued.motion := false })
          else (false, tp)
        (r2.1, { r2.2 with quirks_nonmotion_event_count := 0 })
      else (false, tp)
    let tp2 := r.2
    let tp3 :=
      if tp2.queued.otheraxis ∧ ¬ tp2.queued.motion then
        { tp2 with quirks_nonmotion_event_count := tp2.quirks_nonmotion_event_count + 1 }
      else tp2
    (r.1, tp3)
  else (false, tp)

/-! ## Motion history ring buffer and the MSC-timestamp corrector -/

/-- The index arithmetic of tp_motion_history_offset (lines 46-54):
(index - offset + LEN) % LEN, valid for offset up to LEN. -/
def tp_history_offset_index (index offset : Nat) : Nat :=
  (index + TOUCHPAD_HISTORY_LENGTH - offset) % TOUCHPAD_HISTORY_LENGTH

/-- tp_motion_history_offset (lines 46-54): the sample `offset` steps back
from the most recent one. -/
def tp_motion_history_offset (t : Touch) (offset : Nat) : HistoryPoint :=
  t.history.samples.getD (tp_history_offset_index t.history.index offset) default

/-- The rewrite loop of tp_motion_history_fix_last (lines 1659-1664):
entry i (counting back from the most recent) gets timestamp
time - jumping_interval - normal_interval * i. -/
def tp_fix_history_samples (samples : List HistoryPoint)
    (index count jumping_interval normal_interval time : Nat) : List HistoryPoint :=
  (List.range count).foldl (fun s k =>
    let idx := tp_history_offset_index index k
    let p := s.getD idx default
    s.set idx { p with time := time - jumping_interval - normal_interval * k }) samples

/-- tp_motion_history_fix_last (lines 1642-1665); the tp parameter of the
C function is unused in its body and dropped here. -/
def tp_motion_history_fix_last (t : Touch)
    (jumping_interval normal_interval time : Nat) : Touch :=
  if t.state ≠ .UPDATE then t
  else { t with history.samples :=
    (tp_fix_history_samples t.history.samples t.history.index t.history.count
      jumping_interval normal_interval time) }

/-- tp_process_msc_timestamp (lines 1667-1747).  The second component of
the result records the filter_restart call: `some t0` means the
pointer-accel filter was restarted exactly once, at time t0. -/
def tp_process_msc_timestamp (tp : Tp) (time : Nat) : Tp × Option Nat :=
  let m := tp.msc
  if m.now = 0 then
    ({ tp with msc := { state := .EXPECT_FIRST, interval := 0, now := m.now } }, none)
  else
    match m.state with
    | .EXPECT_FIRST =>
      if m.now > ms2us 20 then ({ tp with msc.state := .IGNORE }, none)
      else ({ tp with msc := { m with state := .EXPECT_DELAY, interval := m.now } }, none)
    | .EXPECT_DELAY =>
      if m.now > m.interval * 2 then
        let tdelta := m.now - m.interval
        let tp :=
          { tp with touches :=
              (tp.touches.map
                (fun t => tp_motion_history_fix_last t tdelta m.interval time)) }
        ({ tp with msc.state := .IGNORE }, some (time - tdelta))
      else (tp, none)
    | .IGNORE => (tp, none)

/-! ## Jump detector (lines 1523-1583) -/

open Classical in
/-- tp_detect_jumps (lines 1523-1583).  Returns the is_jump flag and the
state with jumps.last_delta_mm updated.  C doubles are modelled as reals;
the kernel-bug log emitted by the caller is not modelled. -/
noncomputable def tp_detect_jumps (tp : Tp) (i : Nat) (time : Nat) : Bool × Tp :=
  let reference_interval : Nat := ms2us 12
  if tp.model_wacom then (false, tp)
  else
    let t := tp_get_touch tp i
    if t.history.count = 0 then
      (false, tp_set_touch tp i { t with jumps.last_delta_mm := 0 })
    else
      let last := tp_motion_history_offset t 0
      let tdelta := time - last.time
      let reference_interval :=
        if tp.model_test_device then tdelta else reference_interval
      if tdelta > 2 * reference_interval ∨ tdelta = 0 then (false, tp)
      else
        let delta : Point := ⟨|t.point.x - last.point.x|, |t.point.y - last.point.y|⟩
        let mm := evdev_device_unit_delta_to_mm tp delta
        let abs_distance : ℝ :=
          length_in_mm mm * (reference_interval : ℝ) / (tdelta : ℝ)
        let rel_distance : ℝ := abs_distance - t.jumps.last_delta_mm
        let is_jump : Bool := decide (abs_distance > 20 ∨ rel_distance > 7)
        (is_jump, tp_set_touch tp i { t with jumps.last_delta_mm := abs_distance })

/-! ## Disable-while-typing keyboard handling (lines 2263-2357) -/

/-- tp_key_is_modifier (lines 2263-2284). -/
def tp_key_is_modifier (keycode : Nat) : Bool :=
  decide (keycode = KEY_LEFTCTRL ∨ keycode = KEY_RIGHTCTRL ∨
          keycode = KEY_LEFTALT ∨ keycode = KEY_RIGHTALT ∨
          keycode = KEY_LEFTSHIFT ∨ keycode = KEY_RIGHTSHIFT ∨
          keycode = KEY_FN ∨ keycode = KEY_CAPSLOCK ∨
          keycode = KEY_TAB ∨ keycode = KEY_COMPOSE ∨
          keycode = KEY_RIGHTMETA ∨ keycode = KEY_LEFTMETA)

/-- tp_key_ignore_for_dwt (lines 2286-2297). -/
def tp_key_ignore_for_dwt (keycode : Nat) : Bool :=
  if tp_key_is_modifier keycode then false else decide (keycode ≥ KEY_F1)

/-- The observable outcome of tp_keyboard_event: the new dispatcher state,
the deadline passed to libinput_timer_set (none when the timer is not
touched), and whether tp_stop_actions ran (it stops tap, gestures and
edge scroll). -/
structure KeyboardEventResult where
  tp : Tp
  timer_set : Option Nat := none
  stopped_actions : Bool := false

/-- tp_keyboard_event (lines 2299-2357) for a LIBINPUT_EVENT_KEYBOARD_KEY
event with the given key and press state.  The key/mod masks are modelled
as finite sets of key codes (long_set_bit / long_clear_bit /
long_any_bit_set become insert / erase / nonempty). -/
def tp_keyboard_event (tp : Tp) (time : Nat) (key : Nat) (pressed : Bool) :
    KeyboardEventResult :=
  if ¬ pressed then
    { tp := { tp with
        dwt.key_mask := tp.dwt.key_mask.erase key
        dwt.mod_mask := tp.dwt.mod_mask.erase key } }
  else if ¬ tp.dwt.dwt_enabled then { tp := tp }
  else if tp_key_ignore_for_dwt key then { tp := tp }
  else if tp_key_is_modifier key then
    { tp := { tp with dwt.mod_mask := insert key tp.dwt.mod_mask } }
  else if ¬ tp.dwt.keyboard_active then
    if tp.dwt.mod_mask ≠ ∅ then { tp := tp }
    else
      { tp := { tp with
          dwt.keyboard_active := true
          dwt.keyboard_last_press_time := time
          dwt.key_mask := insert key tp.dwt.key_mask }
        timer_set := some (time + DEFAULT_KEYBOARD_ACTIVITY_TIMEOUT_1)
        stopped_actions := true }
  else
    { tp := { tp with
        dwt.keyboard_last_press_time := time
        dwt.key_mask := insert key tp.dwt.key_mask }
      timer_set := some (time + DEFAULT_KEYBOARD_ACTIVITY_TIMEOUT_2)
      stopped_actions := false }

/-! ## The touch-lifecycle operations as a step relation -/

/-- Every operation in the dispatcher that can move a touch into or out of
the states BEGIN/UPDATE or change nfingers_down. -/
inductive TouchOp
  | new_touch (i time : Nat)
  | begin_touch (i time : Nat)
  | maybe_end_touch (i time : Nat)
  | recover_ended_touch (i : Nat)
  | end_touch (i time : Nat)
  | end_sequence (i time : Nat)
  | post_process (time : Nat)

def TouchOp.apply (tp : Tp) : TouchOp → Tp
  | .new_touch i time => tp_new_touch tp i time
  | .begin_touch i time => tp_begin_touch tp i time
  | .maybe_end_touch i time => tp_maybe_end_touch tp i time
  | .recover_ended_touch i => tp_recover_ended_touch tp i
  | .end_touch i time => tp_end_touch tp i time
  | .end_sequence i time => tp_end_sequence tp i time
  | .post_process time => tp_post_process_state tp time

/-- The call-site preconditions in the source: tp_begin_touch is only ever
invoked on a touch in TOUCH_HOVERING (lines 1265-1272, 1303-1313,
1355-1364, 1399-1408) and tp_recover_ended_touch only on a touch in
TOUCH_MAYBE_END (lines 611-619). -/
def TouchOp.precond (tp : Tp) : TouchOp → Prop
  | .begin_touch i _ => (tp_get_touch tp i).state = .HOVERING
  | .recover_ended_touch i => (tp_get_touch tp i).state = .MAYBE_END
  | _ => True

/-- Whether a touch is in state BEGIN or UPDATE (counts as a finger
down). -/
def touch_is_down (t : Touch) : Bool :=
  t.state == TouchState.BEGIN || t.state == TouchState.UPDATE

/-- The number of touches whose state is BEGIN or UPDATE. -/
def touchesDown (tp : Tp) : Nat :=
  tp.touches.countP touch_is_down

/-- The invariant of the claim: nfingers_down counts the touches in
BEGIN or UPDATE. -/
def NfingersInv (tp : Tp) : Prop := tp.nfingers_down = touchesDown tp

/-! ## Concrete states used as witnesses and counterexamples -/

/-- A dispatcher with one hovering touch, for the C1 witness. -/
def tpW1 : Tp := { touches := [{ state := .HOVERING }], nfingers_down := 0 }

/-- Counterexample state for the thumb monotonicity claim: touch 0 is an
established fast-moving finger, touch 1 began this frame above the upper
thumb line (its y is smaller than the line), two fingers are down, edge
scrolling is selected (so two-finger scroll is disabled). -/
def exC2 : Tp :=
  { touches :=
      [ { state := .UPDATE, point := ⟨500, 2000⟩,
          speed := { last_speed := 0, exceeded_count := 6 } },
        { state := .BEGIN, point := ⟨400, 100⟩,
          thumb := { state := .THUMB_MAYBE, initial := ⟨0, 0⟩, first_touch_time := 0 } } ]
    nfingers_down := 2
    thumb_detect_thumbs := true
    thumb_upper_thumb_line := 1000
    thumb_lower_thumb_line := 1100
    scroll_method := .EDGE }

/-- exC2 after tp_thumb_detect ran on touch 1 (rule A labels it
THUMB_NO because it is above the upper thumb line). -/
noncomputable def exC2' : Tp := tp_thumb_detect exC2 1 0

/-- Counterexample state for the palm stickiness claim: a live touch in
TOUCH_UPDATE already labelled PALM_TOUCH_SIZE, while arbitration is
active. -/
def exC3 : Tp :=
  { touches :=
      [ { state := .UPDATE, point := ⟨500, 500⟩, major := 900, minor := 800,
          palm := { state := .PALM_TOUCH_SIZE, first := ⟨0, 0⟩, time := 0 } } ]
    nfingers_down := 1
    palm_use_size := true
    palm_size_threshold := 700
    arbitration_state := .IGNORE_ALL }

/-- Witness state for the amended palm stickiness claim: like exC3 but
with arbitration inactive. -/
def tpW3 : Tp :=
  { touches :=
      [ { state := .UPDATE, point := ⟨500, 500⟩, major := 900, minor := 800,
          palm := { state := .PALM_TOUCH_SIZE, first := ⟨0, 0⟩, time := 0 } } ]
    nfingers_down := 1
    palm_use_size := true
    palm_size_threshold := 700
    arbitration_state := .NOT_ACTIVE }

/-- Witness state for the TOUCH_BEGIN DWT overwrite: a touch entering
TOUCH_BEGIN still carrying PALM_TOUCH_SIZE (acquired while hovering)
while the paired keyboard is active. -/
def tpW3b : Tp :=
  { touches :=
      [ { state := .BEGIN, point := ⟨500, 500⟩, major := 900, minor := 800,
          palm := { state := .PALM_TOUCH_SIZE, first := ⟨0, 0⟩, time := 0 } } ]
    nfingers_down := 1
    palm_use_size := true
    palm_size_threshold := 700
    dwt := { dwt_enabled := true, keyboard_active := true }
    arbitration_state := .NOT_ACTIVE }

/-- Witness state for the TOUCH_BEGIN edge overwrite: a touch entering
TOUCH_BEGIN inside the left palm edge zone, still carrying
PALM_TOUCH_SIZE but with its size back below the threshold, keyboard
inactive. -/
def tpW3c : Tp :=
  { touches :=
      [ { state := .BEGIN, point := ⟨5, 500⟩, major := 100, minor := 100,
          palm := { state := .PALM_TOUCH_SIZE, first := ⟨0, 0⟩, time := 0 } } ]
    nfingers_down := 1
    palm_use_size := true
    palm_size_threshold := 700
    palm_left_edge := 10
    arbitration_state := .NOT_ACTIVE }

/-- Counterexample state for the fake-finger-count claim: BTN_TOOL_FINGER
(bit 1) and BTN_TOOL_TRIPLETAP (bit 3) asserted simultaneously, no
overflow. -/
def exC4 : Tp := { fake_touches := 2 + 8 }

/-- Counterexample state for the hover-begin history-reset claim: one
hovering touch with a nonempty motion history; BTN_TOUCH and
BTN_TOOL_FINGER are down, so the fake-finger hover resolver must begin
the touch. -/
def exC5 : Tp :=
  { touches :=
      [ { state := .HOVERING, dirty := true,
          history := { samples := [], index := 0, count := 3 } } ]
    nfingers_down := 0
    fake_touches := 3 }

/-- Witness state for the amended hover-reset claim: a dirty hovering
touch with pressure above the high threshold, pressure-based resolver. -/
def tpW5 : Tp :=
  { touches :=
      [ { state := .HOVERING, dirty := true, pressure := 50,
          history := { samples := [], index := 0, count := 2 } } ]
    nfingers_down := 0
    num_slots := 1
    pressure_use_pressure := true
    pressure_high := 30
    pressure_low := 20 }

/-- Witness state for the MSC-timestamp claim: EXPECT_DELAY with a latched
7300 us interval, and one touch in TOUCH_UPDATE with a full history
ring; msc.now jumped to 123456 us. -/
def tpW7 : Tp :=
  { touches :=
      [ { state := .UPDATE
          history :=
            { samples :=
                [ ⟨⟨0, 0⟩, 100000⟩, ⟨⟨1, 1⟩, 107300⟩, ⟨⟨2, 2⟩, 114600⟩, ⟨⟨3, 3⟩, 121900⟩ ]
              index := 3
              count := 4 } } ]
    nfingers_down := 1
    msc := { state := .EXPECT_DELAY, interval := 7300, now := 123456 } }

/-- Witness state for the jump-detector claim: one touch with history, on
a regular frame interval. -/
def tpW6 : Tp :=
  { touches :=
      [ { state := .UPDATE, point := ⟨1300, 0⟩
          history :=
            { samples := [ ⟨⟨100, 0⟩, 50000⟩ ]
              index := 0
              count := 1 }
          jumps := { last_delta_mm := 0 } } ]
    nfingers_down := 1
    res_x := 10
    res_y := 10 }

/-- Counterexample state for the jump-detector claim: a test-quirk device
(EVDEV_MODEL_TEST_DEVICE) whose last history sample is 50 ms old. -/
def exC6 : Tp :=
  { touches :=
      [ { state := .UPDATE, point := ⟨1300, 0⟩
          history :=
            { samples := [ ⟨⟨100, 0⟩, 10000⟩ ]
              index := 0
              count := 1 }
          jumps := { last_delta_mm := 0 } } ]
    nfingers_down := 1
    res_x := 10
    res_y := 10
    model_test_device := true }

/-- Witness state for the DWT claim: dwt enabled, keyboard not active,
no modifier held. -/
def tpW8 : Tp := { dwt := { dwt_enabled := true } }

/-- Witness state for the end-touch claim: one touch in TOUCH_UPDATE (not
MAYBE_END). -/
def tpW9 : Tp := { touches := [ { state := .UPDATE } ], nfingers_down := 1 }

/-- Proof-support predicate for the hover-resolver claim: relative to the
state `orig` at entry, every touch of `cur` that was HOVERING in `orig`
and is BEGIN in `cur` has an empty motion history. -/
def HistInv (orig cur : Tp) : Prop :=
  orig.touches.length = cur.touches.length ∧
  ∀ i, (tp_get_touch orig i).state = .HOVERING →
    (tp_get_touch cur i).state = .BEGIN →
    (tp_get_touch cur i).history.count = 0

/-! # Helper lemmas -/

lemma tp_get_touch_of_ge (tp : Tp) (i : Nat) (h : tp.touches.length ≤ i) :
    tp_get_touch tp i = default := by
  unfold tp_get_touch
  exact List.getD_eq_default _ _ h

lemma default_touch_state : (default : Touch).state = .NONE := by decide

lemma lt_length_of_state_ne_none {tp : Tp} {i : Nat}
    (h : (tp_get_touch tp i).state ≠ .NONE) : i < tp.touches.length := by
  by_contra hge
  push_neg at hge
  rw [tp_get_touch_of_ge tp i hge, default_touch_state] at h
  exact h rfl

lemma list_getD_set_self {α : Type} (l : List α) (i : Nat) (a d : α)
    (h : i < l.length) : (l.set i a).getD i d = a := by
  simp [List.getD_eq_getElem?_getD, List.getElem?_set_self',
    List.getElem?_eq_getElem h]

lemma list_getD_set_ne {α : Type} (l : List α) (i j : Nat) (a d : α)
    (h : j ≠ i) : (l.set i a).getD j d = l.getD j d := by
  simp [List.getD_eq_getElem?_getD, List.getElem?_set_ne h.symm]

lemma list_getD_map {α β : Type} (l : List α) (f : α → β) (i : Nat)
    (d : α) (d' : β) (h : i < l.length) :
    (l.map f).getD i d' = f (l.getD i d) := by
  simp [List.getD_eq_getElem?_getD, List.getElem?_map,
    List.getElem?_eq_getElem h]

lemma tp_get_set_self (tp : Tp) (i : Nat) (t : Touch) (h : i < tp.touches.length) :
    tp_get_touch (tp_set_touch tp i t) i = t := by
  simp [tp_get_touch, tp_set_touch, List.getD_eq_getElem?_getD,
    List.getElem?_set_self', List.getElem?_eq_getElem h]

lemma tp_get_set_ne (tp : Tp) (i j : Nat) (t : Touch) (h : j ≠ i) :
    tp_get_touch (tp_set_touch tp i t) j = tp_get_touch tp j := by
  simp [tp_get_touch, tp_set_touch, List.getD_eq_getElem?_getD,
    List.getElem?_set_ne h.symm]

lemma tp_set_touch_length (tp : Tp) (i : Nat) (t : Touch) :
    (tp_set_touch tp i t).touches.length = tp.touches.length := by
  simp [tp_set_touch]

lemma ffsAux_spec (fuel : Nat) : ∀ n, n ≤ fuel →
    (ffsAux fuel n = 0 ↔ n = 0) ∧
    (n ≠ 0 → n.testBit (ffsAux fuel n - 1) = true ∧
      ∀ j, j < ffsAux fuel n - 1 → n.testBit j = false) := by
  induction fuel with
  | zero =>
      intro n h
      have : n = 0 := by omega
      subst this
      simp [ffsAux]
  | succ fuel ih =>
      intro n h
      by_cases h0 : n = 0
      · subst h0; simp [ffsAux]
      · by_cases hodd : n % 2 = 1
        · refine ⟨by simp [ffsAux, h0, hodd], fun _ => ⟨?_, ?_⟩⟩
          · simp [ffsAux, h0, hodd, Nat.testBit_zero]
          · intro j hj
            simp [ffsAux, h0, hodd] at hj
        · have hne : n / 2 ≠ 0 := by omega
          have hle : n / 2 ≤ fuel := by omega
          obtain ⟨ih1, ih2⟩ := ih (n / 2) hle
          obtain ⟨ihb, ihlt⟩ := ih2 hne
          have hr : ffsAux (fuel + 1) n = ffsAux fuel (n / 2) + 1 := by
            simp [ffsAux, h0, hodd]
          have hrne : ffsAux fuel (n / 2) ≠ 0 := fun hz => hne (ih1.mp hz)
          refine ⟨by omega, fun _ => ⟨?_, ?_⟩⟩
          · rw [hr]
            have : ffsAux fuel (n / 2) + 1 - 1 =
                (ffsAux fuel (n / 2) - 1) + 1 := by omega
            rw [this, Nat.testBit_succ]
            exact ihb
          · intro j hj
            rw [hr] at hj
            match j with
            | 0 =>
                rw [Nat.testBit_zero]
                simp [hodd]
            | k + 1 =>
                rw [Nat.testBit_succ]
                exact ihlt k (by omega)

lemma ffs_spec (n : Nat) :
    (ffs n = 0 ↔ n = 0) ∧
    (n ≠ 0 → n.testBit (ffs n - 1) = true ∧
      ∀ j, j < ffs n - 1 → n.testBit j = false) :=
  ffsAux_spec n n (le_refl n)

lemma and_overflow_iff (n : Nat) : n &&& FAKE_FINGER_OVERFLOW ≠ 0 ↔ n.testBit 7 = true := by
  rw [show FAKE_FINGER_OVERFLOW = 2 ^ 7 by decide, Nat.and_two_pow]
  cases h : n.testBit 7 <;> simp

/-! # C10: tp_fake_finger_set and the overflow flag -/

/-- C10: in tp_fake_finger_set, a press of any of BTN_TOUCH,
BTN_TOOL_FINGER, BTN_TOOL_DOUBLETAP, BTN_TOOL_TRIPLETAP or
BTN_TOOL_QUADTAP clears the FAKE_FINGER_OVERFLOW flag; a press of
BTN_TOOL_QUINTTAP is the only event that sets the flag, and a release of
BTN_TOOL_QUINTTAP changes nothing. -/
theorem fake_finger_set_overflow (tp : Tp) :
    (∀ code, code = BTN_TOUCH ∨ code = BTN_TOOL_FINGER ∨
        code = BTN_TOOL_DOUBLETAP ∨ code = BTN_TOOL_TRIPLETAP ∨
        code = BTN_TOOL_QUADTAP →
      (tp_fake_finger_set tp code true).fake_touches.testBit 7 = false) ∧
    (tp_fake_finger_set tp BTN_TOOL_QUINTTAP true).fake_touches =
      tp.fake_touches ||| FAKE_FINGER_OVERFLOW ∧
    tp_fake_finger_set tp BTN_TOOL_QUINTTAP false = tp ∧
    (∀ code is_press, ¬ (code = BTN_TOOL_QUINTTAP ∧ is_press = true) →
      (tp_fake_finger_set tp code is_press).fake_touches.testBit 7 = true →
      tp.fake_touches.testBit 7 = true) := by
  have hclear : ∀ (n : Nat) (s : Nat), s < 7 →
      ((n.ldiff FAKE_FINGER_OVERFLOW) ||| (1 <<< s)).testBit 7 = false := by
    intro n s hs
    rw [Nat.testBit_lor, Nat.testBit_ldiff]
    have h1 : (FAKE_FINGER_OVERFLOW : Nat).testBit 7 = true := by decide
    have h2 : (1 <<< s).testBit 7 = false := by
      rw [Nat.shiftLeft_eq, one_mul, Nat.testBit_two_pow_of_ne (by omega)]
    rw [h1, h2]
    simp
  have hldiff7 : ∀ (n : Nat) (m : Nat), (n.ldiff m).testBit 7 = true →
      n.testBit 7 = true := by
    intro n m h
    rw [Nat.testBit_ldiff] at h
    exact (Bool.and_eq_true _ _ |>.mp h).1
  refine ⟨?_, ?_, ?_, ?_⟩
  · rintro code (rfl | rfl | rfl | rfl | rfl)
    · exact hclear tp.fake_touches 0 (by omega)
    · exact hclear tp.fake_touches 1 (by omega)
    · exact hclear tp.fake_touches 2 (by omega)
    · exact hclear tp.fake_touches 3 (by omega)
    · exact hclear tp.fake_touches 4 (by omega)
  · rfl
  · rfl
  · intro code is_press hnot h
    by_cases hq : code = BTN_TOOL_QUINTTAP
    · subst hq
      cases is_press
      · simpa [tp_fake_finger_set] using h
      · exact absurd ⟨rfl, rfl⟩ hnot
    · by_cases ht : code = BTN_TOUCH
      · subst ht
        cases is_press
        · replace h : ((tp.fake_touches.ldiff FAKE_FINGER_OVERFLOW).ldiff
              (1 <<< 0)).testBit 7 = true := h
          exact hldiff7 _ _ (hldiff7 _ _ h)
        · replace h : ((tp.fake_touches.ldiff FAKE_FINGER_OVERFLOW) |||
              (1 <<< 0)).testBit 7 = true := h
          rw [hclear tp.fake_touches 0 (by omega)] at h
          exact absurd h (by simp)
      · by_cases hf : code = BTN_TOOL_FINGER ∨ code = BTN_TOOL_DOUBLETAP ∨
            code = BTN_TOOL_TRIPLETAP ∨ code = BTN_TOOL_QUADTAP
        · rcases hf with rfl | rfl | rfl | rfl <;> cases is_press
          · exact hldiff7 _ _
              (show ((tp.fake_touches.ldiff (1 <<< 1)).testBit 7 = true) from h)
          · replace h : ((tp.fake_touches.ldiff FAKE_FINGER_OVERFLOW) |||
                (1 <<< 1)).testBit 7 = true := h
            rw [hclear tp.fake_touches 1 (by omega)] at h
            exact absurd h (by simp)
          · exact hldiff7 _ _
              (show ((tp.fake_touches.ldiff (1 <<< 2)).testBit 7 = true) from h)
          · replace h : ((tp.fake_touches.ldiff FAKE_FINGER_OVERFLOW) |||
                (1 <<< 2)).testBit 7 = true := h
            rw [hclear tp.fake_touches 2 (by omega)] at h
            exact absurd h (by simp)
          · exact hldiff7 _ _
              (show ((tp.fake_touches.ldiff (1 <<< 3)).testBit 7 = true) from h)
          · replace h : ((tp.fake_touches.ldiff FAKE_FINGER_OVERFLOW) |||
                (1 <<< 3)).testBit 7 = true := h
            rw [hclear tp.fake_touches 3 (by omega)] at h
            exact absurd h (by simp)
          · exact hldiff7 _ _
              (show ((tp.fake_touches.ldiff (1 <<< 4)).testBit 7 = true) from h)
          · replace h : ((tp.fake_touches.ldiff FAKE_FINGER_OVERFLOW) |||
                (1 <<< 4)).testBit 7 = true := h
            rw [hclear tp.fake_touches 4 (by omega)] at h
            exact absurd h (by simp)
        · simp only [tp_fake_finger_set, if_neg ht, if_neg hf, if_neg hq] at h
          exact h

/-- C10 witness: instantiate the press clauses at a state with the
overflow flag set. -/
theorem fake_finger_set_overflow_witness :
    (tp_fake_finger_set { fake_touches := 128 + 2 } BTN_TOOL_DOUBLETAP
      true).fake_touches.testBit 7 = false :=
  (fake_finger_set_overflow { fake_touches := 128 + 2 }).1 BTN_TOOL_DOUBLETAP
    (by decide)

/-! # C4: tp_fake_finger_count -/

/-- C4 counterexample: with BTN_TOOL_FINGER (bit 1) and BTN_TOOL_TRIPLETAP
(bit 3) both asserted and no overflow, the highest asserted tool bit is
TRIPLETAP, so the claim demands 3; tp_fake_finger_count uses ffs() and
returns 1, the lowest asserted tool bit. -/
theorem fake_finger_count_not_highest :
    exC4.fake_touches.testBit 1 = true ∧ exC4.fake_touches.testBit 3 = true ∧
    exC4.fake_touches.testBit 7 = false ∧
    tp_fake_finger_count exC4 = 1 ∧ tp_fake_finger_count exC4 ≠ 3 := by
  decide

/-- C4 (amended): if the overflow flag is set, tp_fake_finger_count
returns the overflow sentinel; otherwise it returns the one-based index of
the LOWEST asserted BTN_TOOL_* tool bit (0 when no tool bit is asserted),
and bit 0 (BTN_TOUCH) is never counted. -/
theorem fake_finger_count_lowest (tp : Tp) :
    (tp.fake_touches.testBit 7 = true →
      tp_fake_finger_count tp = FAKE_FINGER_OVERFLOW) ∧
    (tp.fake_touches.testBit 7 = false →
      (tp_fake_finger_count tp = 0 → tp.fake_touches >>> 1 = 0) ∧
      (tp_fake_finger_count tp ≠ 0 →
        tp.fake_touches.testBit (tp_fake_finger_count tp) = true ∧
        ∀ j, 1 ≤ j → j < tp_fake_finger_count tp →
          tp.fake_touches.testBit j = false) ∧
      tp_fake_finger_count { tp with fake_touches := tp.fake_touches ||| 1 } =
        tp_fake_finger_count tp) := by
  constructor
  · intro h7
    unfold tp_fake_finger_count
    rw [if_pos ((and_overflow_iff _).mpr h7)]
  · intro h7
    have hcond : ¬ (tp.fake_touches &&& FAKE_FINGER_OVERFLOW ≠ 0) := by
      rw [and_overflow_iff]
      simp [h7]
    have hval : tp_fake_finger_count tp = ffs (tp.fake_touches >>> 1) := by
      unfold tp_fake_finger_count
      rw [if_neg hcond]
    obtain ⟨hzero, hspec⟩ := ffs_spec (tp.fake_touches >>> 1)
    refine ⟨?_, ?_, ?_⟩
    · intro h0
      exact hzero.mp (hval ▸ h0)
    · intro hne
      rw [hval] at hne
      obtain ⟨hb, hlt⟩ := hspec (fun hz => hne (hzero.mpr hz))
      constructor
      · rw [hval]
        have h1 : ffs (tp.fake_touches >>> 1) =
            1 + (ffs (tp.fake_touches >>> 1) - 1) := by
          omega
        rw [h1, ← Nat.testBit_shiftRight]
        exact hb
      · intro j hj1 hjlt
        rw [hval] at hjlt
        have h1 : j = 1 + (j - 1) := by omega
        rw [h1, ← Nat.testBit_shiftRight]
        exact hlt (j - 1) (by omega)
    · have hsh : (tp.fake_touches ||| 1) >>> 1 = tp.fake_touches >>> 1 := by
        apply Nat.eq_of_testBit_eq
        intro i
        have h1 : (1 : Nat).testBit (1 + i) = false := by
          rw [show (1 : Nat) = 2 ^ 0 by norm_num,
            Nat.testBit_two_pow_of_ne (by omega)]
        simp [Nat.testBit_shiftRight, Nat.testBit_lor, h1]
      have h7' : ¬ ((tp.fake_touches ||| 1) &&& FAKE_FINGER_OVERFLOW ≠ 0) := by
        rw [and_overflow_iff, Nat.testBit_lor, h7]
        simp [show (1 : Nat).testBit 7 = false from by decide]
      unfold tp_fake_finger_count
      simp only [if_neg hcond, if_neg h7']
      rw [hsh]

/-- C4 witness: at the counterexample mask, the amended theorem reports a
nonzero count whose bit is indeed asserted. -/
theorem fake_finger_count_lowest_witness :
    tp_fake_finger_count exC4 ≠ 0 ∧
    exC4.fake_touches.testBit (tp_fake_finger_count exC4) = true :=
  ⟨by decide, (((fake_finger_count_lowest exC4).2 (by decide)).2.1 (by decide)).1⟩

/-! # C9: tp_end_touch outside TOUCH_MAYBE_END is a no-op -/

/-- C9: calling tp_end_touch on a touch whose state is not TOUCH_MAYBE_END
leaves the touch and the whole dispatcher state (including nfingers_down
and queued) unchanged; only a library-bug message is logged. -/
theorem end_touch_skipped (tp : Tp) (i time : Nat)
    (h : (tp_get_touch tp i).state ≠ .MAYBE_END) :
    tp_end_touch tp i time = tp := by
  unfold tp_end_touch
  simp [h]

/-- C9 witness: a touch in TOUCH_UPDATE is left untouched. -/
theorem end_touch_skipped_witness :
    (tp_get_touch tpW9 0).state ≠ .MAYBE_END ∧ tp_end_touch tpW9 0 5 = tpW9 :=
  ⟨by decide, end_touch_skipped tpW9 0 5 (by decide)⟩

/-! # C8: DWT keyboard events -/

/-- C8: on a paired key-down with dwt enabled and the key neither ignored
nor a modifier: if dwt is inactive it activates (stopping tap, gestures
and scroll) with a 200 ms timeout exactly when no modifier is held, and
with a modifier held nothing at all changes; if dwt is already active the
timeout is refreshed to 500 ms.  A modifier key-down only sets mod_mask
and never activates dwt. -/
theorem keyboard_event_dwt (tp : Tp) (time key : Nat)
    (hen : tp.dwt.dwt_enabled = true)
    (hig : tp_key_ignore_for_dwt key = false) :
    (tp_key_is_modifier key = true →
      (tp_keyboard_event tp time key true).tp =
        { tp with dwt.mod_mask := insert key tp.dwt.mod_mask } ∧
      (tp_keyboard_event tp time key true).timer_set = none ∧
      (tp_keyboard_event tp time key true).stopped_actions = false ∧
      (tp_keyboard_event tp time key true).tp.dwt.keyboard_active =
        tp.dwt.keyboard_active) ∧
    (tp_key_is_modifier key = false →
      (tp.dwt.keyboard_active = false → tp.dwt.mod_mask = ∅ →
        (tp_keyboard_event tp time key true).tp.dwt.keyboard_active = true ∧
        (tp_keyboard_event tp time key true).stopped_actions = true ∧
        (tp_keyboard_event tp time key true).timer_set =
          some (time + DEFAULT_KEYBOARD_ACTIVITY_TIMEOUT_1)) ∧
      (tp.dwt.keyboard_active = false → tp.dwt.mod_mask ≠ ∅ →
        tp_keyboard_event tp time key true = { tp := tp }) ∧
      (tp.dwt.keyboard_active = true →
        (tp_keyboard_event tp time key true).tp.dwt.keyboard_active = true ∧
        (tp_keyboard_event tp time key true).stopped_actions = false ∧
        (tp_keyboard_event tp time key true).timer_set =
          some (time + DEFAULT_KEYBOARD_ACTIVITY_TIMEOUT_2))) := by
  constructor
  · intro hmod
    simp [tp_keyboard_event, hen, hig, hmod]
  · intro hmod
    refine ⟨?_, ?_, ?_⟩
    · intro hact hmask
      simp [tp_keyboard_event, hen, hig, hmod, hact, hmask]
    · intro hact hmask
      simp [tp_keyboard_event, hen, hig, hmod, hact, hmask]
    · intro hact
      simp [tp_keyboard_event, hen, hig, hmod, hact]

/-- C8 witness: key 30 (KEY_A) pressed with dwt enabled, inactive, no
modifier held: dwt activates with a 200 ms timeout. -/
theorem keyboard_event_dwt_witness :
    (tp_keyboard_event tpW8 1000 30 true).tp.dwt.keyboard_active = true ∧
    (tp_keyboard_event tpW8 1000 30 true).stopped_actions = true ∧
    (tp_keyboard_event tpW8 1000 30 true).timer_set =
      some (1000 + DEFAULT_KEYBOARD_ACTIVITY_TIMEOUT_1) :=
  ((keyboard_event_dwt tpW8 1000 30 (by decide) (by decide)).2
    (by decide)).1 (by decide) (by rfl)

/-! # C2: thumb state monotonicity -/

/-- C2 counterexample: touch 1 begins above the upper thumb line, so
tp_thumb_detect (rule A) labels it THUMB_NO; in the same frame the
speed-based second-finger rule (tp_detect_thumb_while_moving, reached
because a touch began while nfingers_down == 2 and
speed_exceeded_count > 5) overwrites that NO with THUMB_YES. -/
theorem thumb_no_overwritten_to_yes :
    (tp_get_touch exC2' 1).state = .BEGIN ∧
    (tp_get_touch exC2' 1).thumb.state = .THUMB_NO ∧
    (tp_get_touch (tp_process_state_speed_thumb exC2' true 6) 1).thumb.state =
      .THUMB_YES := by
  refine ⟨rfl, rfl, rfl⟩

/-- Rule C leaves any touch other than the processed slot i unchanged,
provided that touch is not in THUMB_MAYBE (only MAYBE bystanders are
demoted). -/
lemma thumb_rule_c_get_ne (tp2 : Tp) (i j : Nat) (hji : j ≠ i)
    (hj : (tp_get_touch tp2 j).thumb.state ≠ .THUMB_MAYBE) :
    tp_get_touch (tp_thumb_rule_c tp2 i) j = tp_get_touch tp2 j := by
  simp only [tp_thumb_rule_c]
  split_ifs with c1
  · cases hfind : tp_thumb_find_other tp2.touches tp2.thumb_upper_thumb_line with
    | none => rfl
    | some jstar =>
        simp only
        split_ifs with c5
        · by_cases hjj : j = jstar
          · subst hjj
            rw [tp_get_set_ne tp2 i j _ hji] at c5
            exact absurd c5 hj
          · rw [tp_get_set_ne _ jstar j _ hjj, tp_get_set_ne tp2 i j _ hji]
        · rw [tp_get_set_ne tp2 i j _ hji]
  · rfl

/-- Rule D only ever writes the processed slot i. -/
lemma thumb_rule_d_get_ne (tp3 : Tp) (i time j : Nat) (hji : j ≠ i) :
    tp_get_touch (tp_thumb_rule_d tp3 i time) j = tp_get_touch tp3 j := by
  simp only [tp_thumb_rule_d]
  split_ifs <;> first
    | rfl
    | rw [tp_get_set_ne tp3 i j _ hji]

/-- C2 (amended): once a touch's thumb.state has left THUMB_STATE_MAYBE,
tp_thumb_detect never changes it again (neither for the processed touch,
which is returned with the whole state unchanged, nor for a bystander
touch of the rule-C loop, which is only demoted when still MAYBE); and a
touch labelled THUMB_STATE_YES stays YES even across the speed-based
second-finger rule.  The speed-based rule itself, however, sets the
selected beginning touch to YES unconditionally and can therefore
overwrite a NO assigned earlier in the same frame. -/
theorem thumb_state_monotone (tp : Tp) (i time : Nat) :
    ((tp_get_touch tp i).thumb.state ≠ .THUMB_MAYBE →
      tp_thumb_detect tp i time = tp) ∧
    (∀ j, (tp_get_touch tp j).thumb.state ≠ .THUMB_MAYBE →
      (tp_get_touch (tp_thumb_detect tp i time) j).thumb.state =
        (tp_get_touch tp j).thumb.state) ∧
    (∀ have_new_touch speed_exceeded_count j,
      (tp_get_touch tp j).thumb.state = .THUMB_YES →
      (tp_get_touch
        (tp_process_state_speed_thumb tp have_new_touch speed_exceeded_count)
        j).thumb.state = .THUMB_YES) := by
  have part1 : (tp_get_touch tp i).thumb.state ≠ .THUMB_MAYBE →
      tp_thumb_detect tp i time = tp := by
    intro h
    simp [tp_thumb_detect, h]
  refine ⟨part1, ?_, ?_⟩
  · intro j hj
    by_cases hi : (tp_get_touch tp i).thumb.state = .THUMB_MAYBE
    · have hji : j ≠ i := fun e => hj (e ▸ hi)
      simp only [tp_thumb_detect]
      split_ifs <;>
        first
          | rfl
          | rw [tp_get_set_ne tp i j _ hji]
          | rw [thumb_rule_d_get_ne _ i time j hji,
              thumb_rule_c_get_ne _ i j hji
                (by rw [tp_get_set_ne tp i j _ hji]; exact hj),
              tp_get_set_ne tp i j _ hji]
    · rw [part1 hi]
  · intro hnew sec j hyes
    simp only [tp_process_state_speed_thumb]
    split_ifs with hc
    · simp only [tp_detect_thumb_while_moving]
      rcases hfind : tp_thumb_moving_loop tp.touches.enum none none with ⟨_ | fi, _ | si⟩
      all_goals simp only []
      · exact hyes
      · exact hyes
      · exact hyes
      · split_ifs with hdist
        · exact hyes
        · by_cases hsij : j = si
          · subst hsij
            by_cases hlen : j < tp.touches.length
            · rw [tp_get_set_self _ _ _ hlen]
            · rw [tp_get_touch_of_ge tp j (by omega)] at hyes
              exact absurd hyes (by decide)
          · rw [tp_get_set_ne _ si j _ hsij]
            exact hyes
    · exact hyes

/-- C2 witness for the amended theorem: a touch already labelled NO is
left untouched by tp_thumb_detect. -/
theorem thumb_state_monotone_witness :
    tp_thumb_detect exC2' 1 99 = exC2' :=
  (thumb_state_monotone exC2' 1 99).1 (by decide)

/-! # C3: palm PRESSURE / TOUCH_SIZE stickiness -/

/-- C3 counterexample: a live touch in TOUCH_UPDATE already labelled
PALM_TOUCH_SIZE is relabelled PALM_ARBITRATION when arbitration is
active: tp_palm_detect_arbitration_triggered has no guard on the current
palm state, and the chain position that protects PALM_PRESSURE (the
pressure check running first) does not protect PALM_TOUCH_SIZE. -/
theorem palm_touch_size_overwritten :
    (tp_get_touch exC3 0).palm.state = .PALM_TOUCH_SIZE ∧
    (tp_get_touch exC3 0).state = .UPDATE ∧
    (tp_get_touch (tp_palm_detect exC3 0 0) 0).palm.state = .PALM_ARBITRATION :=
  ⟨rfl, rfl, rfl⟩

/-- C3 (amended): PALM_PRESSURE (only ever entered while palm.use_pressure
is set) is sticky across every per-frame palm evaluation in any touch
state: the pressure detector runs first and short-circuits the chain.
PALM_TOUCH_SIZE is not sticky: besides the arbitration overwrite, a touch
re-evaluated while in TOUCH_BEGIN — reachable, because the size rule has
no touch-state guard and also labels hovering touches, and tp_begin_touch
does not clear palm.state — is overwritten to PALM_TYPING by the DWT rule
when dwt is enabled and the keyboard is active, and to PALM_EDGE by the
edge rule when it begins inside the edge zone with its size back below
the threshold.  Only on a TOUCH_UPDATE evaluation with arbitration
inactive is the TOUCH_SIZE label preserved; tp_end_touch clears the palm
state to PALM_NONE at touch end. -/
theorem palm_pressure_size_sticky (tp : Tp) (i time : Nat) :
    (tp.palm_use_pressure = true →
      (tp_get_touch tp i).palm.state = .PALM_PRESSURE →
      (tp_get_touch (tp_palm_detect tp i time) i).palm.state = .PALM_PRESSURE) ∧
    ((tp_get_touch tp i).palm.state = .PALM_TOUCH_SIZE →
      (tp_get_touch tp i).state = .UPDATE →
      tp.arbitration_state = .NOT_ACTIVE →
      (tp_get_touch (tp_palm_detect tp i time) i).palm.state = .PALM_TOUCH_SIZE) ∧
    ((tp_get_touch tp i).palm.state = .PALM_TOUCH_SIZE →
      (tp_get_touch tp i).state = .BEGIN →
      tp.arbitration_state = .NOT_ACTIVE →
      tp.dwt.dwt_enabled = true →
      tp.dwt.keyboard_active = true →
      (tp_get_touch (tp_palm_detect tp i time) i).palm.state = .PALM_TYPING) ∧
    ((tp_get_touch tp i).palm.state = .PALM_TOUCH_SIZE →
      (tp_get_touch tp i).state = .BEGIN →
      tp.arbitration_state = .NOT_ACTIVE →
      tp.dwt.dwt_enabled = false →
      tp.nfingers_down < 2 →
      (tp_get_touch tp i).major ≤ tp.palm_size_threshold →
      (tp_get_touch tp i).minor ≤ tp.palm_size_threshold →
      tp_palm_in_edge tp (tp_get_touch tp i) = true →
      tp.buttons_is_clickpad = false →
      tp.touch_get_edge_is_right (tp_get_touch tp i) = false →
      (tp_get_touch (tp_palm_detect tp i time) i).palm.state = .PALM_EDGE) ∧
    ((tp_get_touch tp i).state = .MAYBE_END →
      (tp_get_touch (tp_end_touch tp i time) i).palm.state = .PALM_NONE) := by
  refine ⟨?_, ?_, ?_, ?_, ?_⟩
  · intro hup hp
    have hlen : i < tp.touches.length := by
      by_contra hge
      push_neg at hge
      rw [tp_get_touch_of_ge tp i hge] at hp
      exact absurd hp (by decide)
    by_cases hpr : (tp_get_touch tp i).pressure > tp.palm_pressure_threshold
    · have h1 : tp_palm_detect_pressure_triggered tp i time =
          (true, tp_set_touch tp i
            { tp_get_touch tp i with palm.state := .PALM_PRESSURE }) := by
        simp [tp_palm_detect_pressure_triggered, hup, hp, hpr]
      simp only [tp_palm_detect, h1]
      norm_num
      rw [tp_get_set_self _ _ _ hlen]
    · have h1 : tp_palm_detect_pressure_triggered tp i time = (true, tp) := by
        simp [tp_palm_detect_pressure_triggered, hup, hp, hpr]
      simp only [tp_palm_detect, h1]
      norm_num
      exact hp
  · intro hts hst harb
    have hlen : i < tp.touches.length := by
      by_contra hge
      push_neg at hge
      rw [tp_get_touch_of_ge tp i hge] at hts
      exact absurd hts (by decide)
    have h1 : tp_palm_detect_pressure_triggered tp i time = (false, tp) := by
      by_cases hup : tp.palm_use_pressure = true <;>
        simp [tp_palm_detect_pressure_triggered, hup, hts]
    have h2 : tp_palm_detect_arbitration_triggered tp i time = (false, tp) := by
      simp [tp_palm_detect_arbitration_triggered, harb]
    have h3 : tp_palm_detect_dwt_triggered tp i time = (false, tp) := by
      simp [tp_palm_detect_dwt_triggered, hst, hts]
    have h4 : tp_palm_detect_trackpoint_triggered tp i time = (false, tp) := by
      simp [tp_palm_detect_trackpoint_triggered, hts]
    have h5 : tp_palm_detect_tool_triggered tp i time = (false, tp) := by
      simp [tp_palm_detect_tool_triggered, hts]
    have h7 : tp_palm_detect_edge tp i time = (false, tp) := by
      simp [tp_palm_detect_edge, hts, hst]
    by_cases hsz : tp.palm_use_size = true ∧
        ((tp_get_touch tp i).major > tp.palm_size_threshold ∨
         (tp_get_touch tp i).minor > tp.palm_size_threshold)
    · have h6 : tp_palm_detect_touch_size_triggered tp i time =
          (true, tp_set_touch tp i
            { tp_get_touch tp i with palm.state := .PALM_TOUCH_SIZE }) := by
        rcases hsz with ⟨hu, hmm⟩
        simp [tp_palm_detect_touch_size_triggered, hu, hts, hmm]
      simp only [tp_palm_detect, h1, h2, h3, h4, h5, h6]
      norm_num
      rw [tp_get_set_self _ _ _ hlen]
    · have h6 : tp_palm_detect_touch_size_triggered tp i time = (false, tp) := by
        by_cases hu : tp.palm_use_size = true
        · have hmm : ¬ ((tp_get_touch tp i).major > tp.palm_size_threshold ∨
              (tp_get_touch tp i).minor > tp.palm_size_threshold) := by
            intro hc
            exact hsz ⟨hu, hc⟩
          simp [tp_palm_detect_touch_size_triggered, hu, hts, hmm]
        · simp [tp_palm_detect_touch_size_triggered, hu]
      simp only [tp_palm_detect, h1, h2, h3, h4, h5, h6, h7]
      norm_num
      exact hts
  · intro hts hst harb hdwt hkb
    have hlen : i < tp.touches.length := by
      by_contra hge
      push_neg at hge
      rw [tp_get_touch_of_ge tp i hge] at hts
      exact absurd hts (by decide)
    have h1 : tp_palm_detect_pressure_triggered tp i time = (false, tp) := by
      by_cases hup : tp.palm_use_pressure = true <;>
        simp [tp_palm_detect_pressure_triggered, hup, hts]
    have h2 : tp_palm_detect_arbitration_triggered tp i time = (false, tp) := by
      simp [tp_palm_detect_arbitration_triggered, harb]
    have h3 : tp_palm_detect_dwt_triggered tp i time =
        (true, tp_set_touch tp i
          { tp_get_touch tp i with palm.state := .PALM_TYPING,
                                   palm.first := (tp_get_touch tp i).point }) := by
      simp [tp_palm_detect_dwt_triggered, hdwt, hkb, hst]
    simp only [tp_palm_detect, h1, h2, h3]
    norm_num
    rw [tp_get_set_self _ _ _ hlen]
  · intro hts hst harb hdwt hnf hmaj hmin hedge hcp hright
    have hlen : i < tp.touches.length := by
      by_contra hge
      push_neg at hge
      rw [tp_get_touch_of_ge tp i hge] at hts
      exact absurd hts (by decide)
    have h1 : tp_palm_detect_pressure_triggered tp i time = (false, tp) := by
      by_cases hup : tp.palm_use_pressure = true <;>
        simp [tp_palm_detect_pressure_triggered, hup, hts]
    have h2 : tp_palm_detect_arbitration_triggered tp i time = (false, tp) := by
      simp [tp_palm_detect_arbitration_triggered, harb]
    have h3 : tp_palm_detect_dwt_triggered tp i time = (false, tp) := by
      simp [tp_palm_detect_dwt_triggered, hdwt, hst]
    have h4 : tp_palm_detect_trackpoint_triggered tp i time = (false, tp) := by
      simp [tp_palm_detect_trackpoint_triggered, hts]
    have h5 : tp_palm_detect_tool_triggered tp i time = (false, tp) := by
      simp [tp_palm_detect_tool_triggered, hts]
    have h6 : tp_palm_detect_touch_size_triggered tp i time = (false, tp) := by
      by_cases hu : tp.palm_use_size = true
      · have hmm : ¬ ((tp_get_touch tp i).major > tp.palm_size_threshold ∨
            (tp_get_touch tp i).minor > tp.palm_size_threshold) := by
          push_neg
          exact ⟨hmaj, hmin⟩
        simp [tp_palm_detect_touch_size_triggered, hu, hts, hmm]
      · simp [tp_palm_detect_touch_size_triggered, hu]
    have hmf : tp_palm_detect_multifinger tp i time = false := by
      simp [tp_palm_detect_multifinger, hnf]
    have h7 : tp_palm_detect_edge tp i time =
        (true, tp_set_touch tp i
          { tp_get_touch tp i with palm.state := .PALM_EDGE,
                                   palm.time := time,
                                   palm.first := (tp_get_touch tp i).point }) := by
      simp [tp_palm_detect_edge, hts, hst, hmf, hedge, hcp, hright]
    simp only [tp_palm_detect, h1, h2, h3, h4, h5, h6, h7]
    norm_num
    rw [tp_get_set_self _ _ _ hlen]
  · intro hme
    have hlen : i < tp.touches.length := by
      by_contra hge
      push_neg at hge
      rw [tp_get_touch_of_ge tp i hge] at hme
      exact absurd hme (by decide)
    simp only [tp_end_touch, hme]
    norm_num
    simp only [tp_get_touch, tp_set_touch]
    rw [list_getD_set_self tp.touches i _ default hlen]

/-- C3 witness: with arbitration inactive the TOUCH_SIZE label survives a
TOUCH_UPDATE evaluation, but a TOUCH_BEGIN evaluation overwrites it to
PALM_TYPING when the keyboard is active and to PALM_EDGE when the touch
begins inside the edge zone. -/
theorem palm_pressure_size_sticky_witness :
    (tp_get_touch (tp_palm_detect tpW3 0 0) 0).palm.state = .PALM_TOUCH_SIZE ∧
    (tp_get_touch (tp_palm_detect tpW3b 0 0) 0).palm.state = .PALM_TYPING ∧
    (tp_get_touch (tp_palm_detect tpW3c 0 5) 0).palm.state = .PALM_EDGE :=
  ⟨(palm_pressure_size_sticky tpW3 0 0).2.1 (by decide) (by decide) (by decide),
   (palm_pressure_size_sticky tpW3b 0 0).2.2.1 (by decide) (by decide)
     (by decide) (by decide) (by decide),
   (palm_pressure_size_sticky tpW3c 0 5).2.2.2.1 (by decide) (by decide)
     (by decide) (by decide) (by decide) (by decide) (by decide) (by decide)
     (by decide) (by decide)⟩

/-! # C1: the nfingers_down invariant -/

lemma countP_set_add (l : List Touch) (i : Nat) (x : Touch) (p : Touch → Bool)
    (d : Touch) (h : i < l.length) :
    (l.set i x).countP p + (if p (l.getD i d) then 1 else 0) =
      l.countP p + (if p x then 1 else 0) := by
  induction l generalizing i with
  | nil => simp at h
  | cons a l ih =>
      cases i with
      | zero =>
          simp only [List.set_cons_zero, List.countP_cons, List.getD_cons_zero]
          omega
      | succ i =>
          simp only [List.set_cons_succ, List.countP_cons, List.getD_cons_succ]
          have := ih i (by simpa using h)
          omega

lemma countP_set_touch (tp : Tp) (i : Nat) (x : Touch)
    (h : i < tp.touches.length) :
    (tp.touches.set i x).countP touch_is_down +
      (if touch_is_down (tp_get_touch tp i) then 1 else 0) =
      tp.touches.countP touch_is_down + (if touch_is_down x then 1 else 0) :=
  countP_set_add tp.touches i x touch_is_down default h

/-- The commit of tp_post_process_state does not change membership in
{BEGIN, UPDATE}: BEGIN goes to UPDATE, END leaves the set, the rest is
untouched. -/
lemma post_process_touch_pres (t : Touch) :
    touch_is_down (tp_post_process_touch t) = touch_is_down t := by
  unfold touch_is_down tp_post_process_touch
  rcases ht : t.state <;> rcases hd : t.dirty <;> rcases he : t.has_ended <;>
    simp +decide [ht, hd, he]

/-- Setting a slot to a touch with the same down-ness leaves the count
unchanged. -/
lemma touchesDown_set_same (tp : Tp) (i : Nat) (x : Touch)
    (hx : touch_is_down x = touch_is_down (tp_get_touch tp i)) :
    touchesDown (tp_set_touch tp i x) = touchesDown tp := by
  by_cases hlen : i < tp.touches.length
  · have hc := countP_set_touch tp i x hlen
    simp only [touchesDown, tp_set_touch]
    rw [hx] at hc
    omega
  · simp only [touchesDown, tp_set_touch]
    rw [List.set_eq_of_length_le (by omega)]

lemma maybe_end_touch_inv (tp : Tp) (i time : Nat) (h : NfingersInv tp) :
    NfingersInv (tp_maybe_end_touch tp i time) := by
  rcases hstate : (tp_get_touch tp i).state
  case NONE => simpa [tp_maybe_end_touch, hstate] using h
  case MAYBE_END => simpa [tp_maybe_end_touch, hstate] using h
  case END => simpa [tp_maybe_end_touch, hstate] using h
  case HOVERING =>
      have hlen := @lt_length_of_state_ne_none tp i (by simp [hstate])
      have hold : touch_is_down (tp_get_touch tp i) = false := by
        simp +decide [touch_is_down, hstate]
      have hnew : touch_is_down
          { tp_get_touch tp i with state := .NONE, dirty := true } = false := by
        simp +decide [touch_is_down]
      have hc := countP_set_touch tp i
        { tp_get_touch tp i with state := .NONE, dirty := true } hlen
      rw [hold, hnew] at hc
      norm_num at hc
      unfold NfingersInv touchesDown at h ⊢
      simp only [tp_maybe_end_touch, hstate, tp_set_touch]
      omega
  case BEGIN =>
      have hlen := @lt_length_of_state_ne_none tp i (by simp [hstate])
      have hold : touch_is_down (tp_get_touch tp i) = true := by
        simp +decide [touch_is_down, hstate]
      have hnew : touch_is_down
          { tp_get_touch tp i with state := .MAYBE_END, dirty := true } = false := by
        simp +decide [touch_is_down]
      have hc := countP_set_touch tp i
        { tp_get_touch tp i with state := .MAYBE_END, dirty := true } hlen
      rw [hold, hnew] at hc
      norm_num at hc
      unfold NfingersInv touchesDown at h ⊢
      simp only [tp_maybe_end_touch, hstate, tp_set_touch]
      omega
  case UPDATE =>
      have hlen := @lt_length_of_state_ne_none tp i (by simp [hstate])
      have hold : touch_is_down (tp_get_touch tp i) = true := by
        simp +decide [touch_is_down, hstate]
      have hnew : touch_is_down
          { tp_get_touch tp i with state := .MAYBE_END, dirty := true } = false := by
        simp +decide [touch_is_down]
      have hc := countP_set_touch tp i
        { tp_get_touch tp i with state := .MAYBE_END, dirty := true } hlen
      rw [hold, hnew] at hc
      norm_num at hc
      unfold NfingersInv touchesDown at h ⊢
      simp only [tp_maybe_end_touch, hstate, tp_set_touch]
      omega

/-- C1: every operation that moves a touch into or out of
{TOUCH_BEGIN, TOUCH_UPDATE} adjusts nfingers_down accordingly: under the
call-site preconditions of the source, each touch-lifecycle operation
(including the BEGIN to UPDATE commit of tp_post_process_state) preserves
the invariant nfingers_down = |{t : state in {BEGIN, UPDATE}}|, so the
invariant holds at the end of post_process of every frame. -/
theorem nfingers_down_invariant (tp : Tp) (op : TouchOp)
    (hpre : op.precond tp) (hinv : NfingersInv tp) :
    NfingersInv (op.apply tp) := by
  cases op with
  | maybe_end_touch i time => exact maybe_end_touch_inv tp i time hinv
  | new_touch i time =>
      rcases hstate : (tp_get_touch tp i).state
      case BEGIN => simpa +decide [TouchOp.apply, tp_new_touch, hstate] using hinv
      case UPDATE => simpa +decide [TouchOp.apply, tp_new_touch, hstate] using hinv
      case HOVERING => simpa +decide [TouchOp.apply, tp_new_touch, hstate] using hinv
      case MAYBE_END =>
          have hlen := @lt_length_of_state_ne_none tp i
            (by simp [hstate])
          have hold : touch_is_down (tp_get_touch tp i) = false := by
            simp +decide [touch_is_down, hstate]
          have hnew : touch_is_down
              { tp_get_touch tp i with state := .UPDATE, has_ended := false } =
              true := by
            simp +decide [touch_is_down]
          have hc := countP_set_touch tp i
            { tp_get_touch tp i with state := .UPDATE, has_ended := false } hlen
          rw [hold, hnew] at hc
          norm_num at hc
          unfold NfingersInv touchesDown at hinv ⊢
          simp +decide only [TouchOp.apply, tp_new_touch, hstate, tp_set_touch]
          norm_num
          omega
      case NONE =>
          by_cases hlen : i < tp.touches.length
          · have hold : touch_is_down (tp_get_touch tp i) = false := by
              simp +decide [touch_is_down, hstate]
            have hnew : touch_is_down
                (tp_new_touch_hovering (tp_get_touch tp i) time) = false := by
              simp +decide [touch_is_down, tp_new_touch_hovering,
                tp_motion_history_reset]
            have hc := countP_set_touch tp i
              (tp_new_touch_hovering (tp_get_touch tp i) time) hlen
            rw [hold, hnew] at hc
            norm_num at hc
            unfold NfingersInv touchesDown at hinv ⊢
            simp +decide only [TouchOp.apply, tp_new_touch, hstate, tp_set_touch]
            norm_num
            omega
          · have hset : tp.touches.set i
                (tp_new_touch_hovering (tp_get_touch tp i) time) = tp.touches :=
              List.set_eq_of_length_le (by omega)
            unfold NfingersInv touchesDown at hinv ⊢
            simp +decide only [TouchOp.apply, tp_new_touch, hstate, tp_set_touch]
            norm_num
            rw [hset]
            exact hinv
      case END =>
          by_cases hlen : i < tp.touches.length
          · have hold : touch_is_down (tp_get_touch tp i) = false := by
              simp +decide [touch_is_down, hstate]
            have hnew : touch_is_down
                (tp_new_touch_hovering (tp_get_touch tp i) time) = false := by
              simp +decide [touch_is_down, tp_new_touch_hovering,
                tp_motion_history_reset]
            have hc := countP_set_touch tp i
              (tp_new_touch_hovering (tp_get_touch tp i) time) hlen
            rw [hold, hnew] at hc
            norm_num at hc
            unfold NfingersInv touchesDown at hinv ⊢
            simp +decide only [TouchOp.apply, tp_new_touch, hstate, tp_set_touch]
            norm_num
            omega
          · have hset : tp.touches.set i
                (tp_new_touch_hovering (tp_get_touch tp i) time) = tp.touches :=
              List.set_eq_of_length_le (by omega)
            unfold NfingersInv touchesDown at hinv ⊢
            simp +decide only [TouchOp.apply, tp_new_touch, hstate, tp_set_touch]
            norm_num
            rw [hset]
            exact hinv
  | begin_touch i time =>
      have hpre2 : (tp_get_touch tp i).state = .HOVERING := hpre
      have hlen := @lt_length_of_state_ne_none tp i
        (by simp [hpre2])
      have hold : touch_is_down (tp_get_touch tp i) = false := by
        simp +decide [touch_is_down, hpre2]
      have hnew : touch_is_down
          { tp_get_touch tp i with
              dirty := true, state := .BEGIN, time := time, was_down := true,
              palm.time := time, thumb.state := .THUMB_MAYBE,
              thumb.first_touch_time := time, tap.is_thumb := false,
              tap.is_palm := false, speed.exceeded_count := 0 } = true := by
        simp +decide [touch_is_down]
      have hc := countP_set_touch tp i
        { tp_get_touch tp i with
            dirty := true, state := .BEGIN, time := time, was_down := true,
            palm.time := time, thumb.state := .THUMB_MAYBE,
            thumb.first_touch_time := time, tap.is_thumb := false,
            tap.is_palm := false, speed.exceeded_count := 0 } hlen
      rw [hold, hnew] at hc
      norm_num at hc
      unfold NfingersInv touchesDown at hinv ⊢
      simp only [TouchOp.apply, tp_begin_touch, tp_set_touch]
      omega
  | recover_ended_touch i =>
      have hpre2 : (tp_get_touch tp i).state = .MAYBE_END := hpre
      have hlen := @lt_length_of_state_ne_none tp i
        (by simp [hpre2])
      have hold : touch_is_down (tp_get_touch tp i) = false := by
        simp +decide [touch_is_down, hpre2]
      have hnew : touch_is_down
          { tp_get_touch tp i with state := .UPDATE, dirty := true } = true := by
        simp +decide [touch_is_down]
      have hc := countP_set_touch tp i
        { tp_get_touch tp i with state := .UPDATE, dirty := true } hlen
      rw [hold, hnew] at hc
      norm_num at hc
      unfold NfingersInv touchesDown at hinv ⊢
      simp only [TouchOp.apply, tp_recover_ended_touch, tp_set_touch]
      omega
  | end_touch i time =>
      by_cases hstate : (tp_get_touch tp i).state = .MAYBE_END
      · have hlen := @lt_length_of_state_ne_none tp i
          (by simp [hstate])
        have hold : touch_is_down (tp_get_touch tp i) = false := by
          simp +decide [touch_is_down, hstate]
        have hnew : touch_is_down
            { tp_get_touch tp i with
                dirty := true, palm.state := .PALM_NONE, state := .END,
                pinned.is_pinned := false, time := time, palm.time := 0,
                speed.exceeded_count := 0 } = false := by
          simp +decide [touch_is_down]
        have hc := countP_set_touch tp i
          { tp_get_touch tp i with
              dirty := true, palm.state := .PALM_NONE, state := .END,
              pinned.is_pinned := false, time := time, palm.time := 0,
              speed.exceeded_count := 0 } hlen
        rw [hold, hnew] at hc
        norm_num at hc
        unfold NfingersInv touchesDown at hinv ⊢
        simp +decide only [TouchOp.apply, tp_end_touch, hstate, tp_set_touch]
        norm_num
        omega
      · simp only [TouchOp.apply]
        rw [end_touch_skipped tp i time hstate]
        exact hinv
  | end_sequence i time =>
      have hmid : NfingersInv
          (tp_set_touch tp i { tp_get_touch tp i with has_ended := true }) := by
        show (tp_set_touch tp i _).nfingers_down =
          touchesDown (tp_set_touch tp i _)
        rw [touchesDown_set_same tp i _ (by simp +decide [touch_is_down])]
        simpa [tp_set_touch] using hinv
      simp only [TouchOp.apply, tp_end_sequence]
      exact maybe_end_touch_inv _ i time hmid
  | post_process time =>
      unfold NfingersInv touchesDown at hinv ⊢
      simp only [TouchOp.apply, tp_post_process_state]
      rw [List.countP_map]
      rw [List.countP_congr (fun x _ => ?_)]
      · exact hinv
      · rw [Function.comp_apply, post_process_touch_pres]

/-- C1 witness: beginning a hovering touch preserves the invariant. -/
theorem nfingers_down_invariant_witness :
    TouchOp.precond tpW1 (.begin_touch 0 7) ∧ NfingersInv tpW1 ∧
    NfingersInv (TouchOp.apply tpW1 (.begin_touch 0 7)) :=
  ⟨by show (tp_get_touch tpW1 0).state = .HOVERING; decide,
   by show tpW1.nfingers_down = touchesDown tpW1; decide,
   nfingers_down_invariant tpW1 (.begin_touch 0 7)
     (by show (tp_get_touch tpW1 0).state = .HOVERING; decide)
     (by show tpW1.nfingers_down = touchesDown tpW1; decide)⟩

/-! # C7: the MSC-timestamp jump corrector -/

lemma offset_index_lt (index k : Nat) :
    tp_history_offset_index index k < TOUCHPAD_HISTORY_LENGTH := by
  unfold tp_history_offset_index TOUCHPAD_HISTORY_LENGTH
  omega

lemma offset_index_inj (index a b : Nat) (ha : a < TOUCHPAD_HISTORY_LENGTH)
    (hb : b < TOUCHPAD_HISTORY_LENGTH)
    (h : tp_history_offset_index index a = tp_history_offset_index index b) :
    a = b := by
  unfold tp_history_offset_index TOUCHPAD_HISTORY_LENGTH at *
  omega

lemma fix_samples_length (samples : List HistoryPoint)
    (index count j n time : Nat) :
    (tp_fix_history_samples samples index count j n time).length =
      samples.length := by
  unfold tp_fix_history_samples
  generalize List.range count = l
  induction l generalizing samples with
  | nil => rfl
  | cons a l ih =>
      rw [List.foldl_cons, ih]
      simp

/-- Reading the rewrite back: after processing `count` entries, offset m
holds the rewritten timestamp when m < count and the original sample
otherwise. -/
lemma fix_samples_getD (samples : List HistoryPoint) (index j n time : Nat)
    (hlen : samples.length = TOUCHPAD_HISTORY_LENGTH)
    (hidx : index < TOUCHPAD_HISTORY_LENGTH) :
    ∀ count m, count ≤ TOUCHPAD_HISTORY_LENGTH → m < TOUCHPAD_HISTORY_LENGTH →
    (tp_fix_history_samples samples index count j n time).getD
        (tp_history_offset_index index m) default =
      if m < count then
        { samples.getD (tp_history_offset_index index m) default with
          time := time - j - n * m }
      else samples.getD (tp_history_offset_index index m) default := by
  intro count
  induction count with
  | zero =>
      intro m _ _
      simp [tp_fix_history_samples]
  | succ c ih =>
      intro m hc hm
      have hstep : tp_fix_history_samples samples index (c + 1) j n time =
          (tp_fix_history_samples samples index c j n time).set
            (tp_history_offset_index index c)
            { (tp_fix_history_samples samples index c j n time).getD
                (tp_history_offset_index index c) default with
              time := time - j - n * c } := by
        unfold tp_fix_history_samples
        rw [List.range_succ, List.foldl_append]
        rfl
      rw [hstep]
      by_cases hmc : m = c
      · subst hmc
        have hflen : (tp_fix_history_samples samples index m j n time).length =
            TOUCHPAD_HISTORY_LENGTH := by
          rw [fix_samples_length, hlen]
        rw [list_getD_set_self _ _ _ _ (by rw [hflen]; exact offset_index_lt _ _)]
        rw [ih m (by omega) hm]
        rw [if_neg (by omega), if_pos (by omega)]
      · have hne : tp_history_offset_index index m ≠
            tp_history_offset_index index c := by
          intro he
          exact hmc (offset_index_inj index m c hm (by omega) he)
        rw [list_getD_set_ne _ _ _ _ _ hne]
        rw [ih m (by omega) hm]
        by_cases hmlt : m < c
        · rw [if_pos hmlt, if_pos (by omega)]
        · rw [if_neg hmlt, if_neg (by omega)]

/-- C7: in EXPECT_DELAY with nonzero msc.now: when msc.now exceeds twice
the latched interval, tdelta = msc.now - interval is computed, every
touch in TOUCH_UPDATE has history entry i (counting back from the most
recent) rewritten to timestamp time - tdelta - interval * i, the
pointer-accel filter is restarted exactly once at time - tdelta, and the
state becomes IGNORE; when msc.now is at most twice the interval nothing
changes.  A frame with msc.now == 0 always re-enters EXPECT_FIRST with
the interval reset to 0. -/
theorem msc_timestamp_expect_delay (tp : Tp) (time : Nat) :
    (tp.msc.now = 0 →
      (tp_process_msc_timestamp tp time).1.msc.state = .EXPECT_FIRST ∧
      (tp_process_msc_timestamp tp time).1.msc.interval = 0 ∧
      (tp_process_msc_timestamp tp time).2 = none) ∧
    (tp.msc.now ≠ 0 → tp.msc.state = .EXPECT_DELAY →
      (tp.msc.now ≤ tp.msc.interval * 2 →
        tp_process_msc_timestamp tp time = (tp, none)) ∧
      (tp.msc.now > tp.msc.interval * 2 →
        (tp_process_msc_timestamp tp time).2 =
          some (time - (tp.msc.now - tp.msc.interval)) ∧
        (tp_process_msc_timestamp tp time).1.msc.state = .IGNORE ∧
        ∀ i k, (tp_get_touch tp i).state = .UPDATE →
          (tp_get_touch tp i).history.samples.length = TOUCHPAD_HISTORY_LENGTH →
          (tp_get_touch tp i).history.index < TOUCHPAD_HISTORY_LENGTH →
          (tp_get_touch tp i).history.count ≤ TOUCHPAD_HISTORY_LENGTH →
          k < (tp_get_touch tp i).history.count →
          (tp_motion_history_offset
              (tp_get_touch (tp_process_msc_timestamp tp time).1 i) k).time =
            time - (tp.msc.now - tp.msc.interval) - tp.msc.interval * k)) := by
  constructor
  · intro h0
    simp [tp_process_msc_timestamp, h0]
  · intro hnz hst
    constructor
    · intro hle
      simp [tp_process_msc_timestamp, hnz, hst, Nat.not_lt.mpr hle]
    · intro hgt
      refine ⟨?_, ?_, ?_⟩
      · simp [tp_process_msc_timestamp, hnz, hst, hgt]
      · simp [tp_process_msc_timestamp, hnz, hst, hgt]
      · intro i k hup hslen hsidx hscnt hk
        have hilen : i < tp.touches.length :=
          lt_length_of_state_ne_none (by simp [hup])
        have hres : (tp_get_touch (tp_process_msc_timestamp tp time).1 i) =
            tp_motion_history_fix_last (tp_get_touch tp i)
              (tp.msc.now - tp.msc.interval) tp.msc.interval time := by
          simp only [tp_process_msc_timestamp]
          rw [if_neg hnz]
          rw [hst]
          simp only []
          rw [if_pos hgt]
          simp only [tp_get_touch]
          exact list_getD_map tp.touches _ i default default hilen
        rw [hres]
        unfold tp_motion_history_fix_last
        rw [if_neg (by simp [hup])]
        unfold tp_motion_history_offset
        simp only []
        rw [fix_samples_getD _ _ _ _ _ hslen hsidx _ k hscnt
          (by omega)]
        rw [if_pos hk]

/-- C7 witness: the timer/filter restart and the rewrite of history entry
2 at the concrete EXPECT_DELAY state tpW7. -/
theorem msc_timestamp_expect_delay_witness :
    (tp_process_msc_timestamp tpW7 200000).2 =
      some (200000 - (123456 - 7300)) ∧
    (tp_motion_history_offset
        (tp_get_touch (tp_process_msc_timestamp tpW7 200000).1 0) 2).time =
      200000 - (123456 - 7300) - 7300 * 2 :=
  ⟨(((msc_timestamp_expect_delay tpW7 200000).2 (by decide) (by decide)).2
      (by decide)).1,
   (((msc_timestamp_expect_delay tpW7 200000).2 (by decide) (by decide)).2
      (by decide)).2.2 0 2 (by decide) (by decide) (by decide) (by decide)
      (by decide)⟩

/-! # C5: hover promotion and the motion history -/

lemma hist_inv_refl (tp : Tp) : HistInv tp tp := by
  refine ⟨rfl, fun i h1 h2 => ?_⟩
  rw [h1] at h2
  exact absurd h2 (by decide)

lemma begin_reset_length (tp : Tp) (i time : Nat) :
    (tp_begin_touch (tp_set_touch tp i
      (tp_motion_history_reset (tp_get_touch tp i))) i time).touches.length =
      tp.touches.length := by
  simp [tp_begin_touch, tp_set_touch]

lemma begin_reset_get_ne (tp : Tp) (i time j : Nat) (hji : j ≠ i) :
    tp_get_touch (tp_begin_touch (tp_set_touch tp i
      (tp_motion_history_reset (tp_get_touch tp i))) i time) j =
      tp_get_touch tp j := by
  simp only [tp_begin_touch, tp_get_touch, tp_set_touch]
  rw [list_getD_set_ne _ _ _ _ _ hji, list_getD_set_ne _ _ _ _ _ hji]

lemma begin_reset_at_i (tp : Tp) (i time : Nat) (hl : i < tp.touches.length) :
    (tp_get_touch (tp_begin_touch (tp_set_touch tp i
      (tp_motion_history_reset (tp_get_touch tp i))) i time) i).history.count =
      0 := by
  simp only [tp_begin_touch, tp_get_touch, tp_set_touch]
  rw [list_getD_set_self _ _ _ _ (by simpa using hl)]
  rw [list_getD_set_self _ _ _ _ hl]
  rfl

lemma maybe_end_length (tp : Tp) (i time : Nat) :
    (tp_maybe_end_touch tp i time).touches.length = tp.touches.length := by
  rcases hstate : (tp_get_touch tp i).state <;>
    simp [tp_maybe_end_touch, hstate, tp_set_touch]

lemma maybe_end_get_ne (tp : Tp) (i time j : Nat) (hji : j ≠ i) :
    tp_get_touch (tp_maybe_end_touch tp i time) j = tp_get_touch tp j := by
  rcases hstate : (tp_get_touch tp i).state <;>
    simp only [tp_maybe_end_touch, hstate] <;>
    first
      | rfl
      | (simp only [tp_get_touch, tp_set_touch]
         rw [list_getD_set_ne _ _ _ _ _ hji])

lemma maybe_end_state_i (tp : Tp) (i time : Nat) :
    (tp_get_touch (tp_maybe_end_touch tp i time) i).state ≠ .BEGIN := by
  rcases hstate : (tp_get_touch tp i).state
  case NONE => simp [tp_maybe_end_touch, hstate]
  case MAYBE_END => simp [tp_maybe_end_touch, hstate]
  case END => simp [tp_maybe_end_touch, hstate]
  case HOVERING =>
      have hl := @lt_length_of_state_ne_none tp i
        (by simp [hstate])
      simp only [tp_maybe_end_touch, hstate]
      simp only [tp_get_touch, tp_set_touch]
      rw [list_getD_set_self tp.touches i _ default hl]
      simp
  case BEGIN =>
      have hl := @lt_length_of_state_ne_none tp i
        (by simp [hstate])
      simp only [tp_maybe_end_touch, hstate]
      simp only [tp_get_touch, tp_set_touch]
      rw [list_getD_set_self tp.touches i _ default hl]
      simp
  case UPDATE =>
      have hl := @lt_length_of_state_ne_none tp i
        (by simp [hstate])
      simp only [tp_maybe_end_touch, hstate]
      simp only [tp_get_touch, tp_set_touch]
      rw [list_getD_set_self tp.touches i _ default hl]
      simp

lemma hist_inv_maybe_end (orig tp : Tp) (i time : Nat) (h : HistInv orig tp) :
    HistInv orig (tp_maybe_end_touch tp i time) := by
  obtain ⟨hlen, hinv⟩ := h
  refine ⟨hlen.trans (maybe_end_length tp i time).symm, fun j h1 h2 => ?_⟩
  by_cases hji : j = i
  · subst hji
    exact absurd h2 (maybe_end_state_i tp j time)
  · rw [maybe_end_get_ne tp i time j hji] at h2 ⊢
    exact hinv j h1 h2

lemma hist_inv_begin_reset (orig tp : Tp) (i time : Nat) (h : HistInv orig tp) :
    HistInv orig (tp_begin_touch (tp_set_touch tp i
      (tp_motion_history_reset (tp_get_touch tp i))) i time) := by
  obtain ⟨hlen, hinv⟩ := h
  refine ⟨hlen.trans (begin_reset_length tp i time).symm, fun j h1 h2 => ?_⟩
  by_cases hji : j = i
  · subst hji
    by_cases hl : j < tp.touches.length
    · exact begin_reset_at_i tp j time hl
    · have hd : tp_get_touch (tp_begin_touch (tp_set_touch tp j
          (tp_motion_history_reset (tp_get_touch tp j))) j time) j = default := by
        apply tp_get_touch_of_ge
        rw [begin_reset_length]
        omega
      rw [hd] at h2
      exact absurd h2 (by decide)
  · rw [begin_reset_get_ne tp i time j hji] at h2 ⊢
    exact hinv j h1 h2

lemma hist_inv_pressure_slot (orig : Tp) (nfake time : Nat) (acc : Tp × Nat)
    (i : Nat) (h : HistInv orig acc.1) :
    HistInv orig (tp_unhover_pressure_slot nfake time acc i).1 := by
  simp only [tp_unhover_pressure_slot]
  split_ifs <;>
    first
      | exact h
      | exact hist_inv_begin_reset orig acc.1 i time h
      | exact hist_inv_maybe_end orig acc.1 i time h

lemma hist_inv_slots_fold (orig : Tp) (nfake time : Nat) (l : List Nat) :
    ∀ acc : Tp × Nat, HistInv orig acc.1 →
      HistInv orig ((l.foldl (tp_unhover_pressure_slot nfake time) acc)).1 := by
  induction l with
  | nil => intro acc h; exact h
  | cons a l ih =>
      intro acc h
      exact ih _ (hist_inv_pressure_slot orig nfake time acc a h)

lemma hist_inv_begin_loop (orig : Tp) (time nfake : Nat) (l : List Nat) :
    ∀ tp, HistInv orig tp →
      HistInv orig (tp_unhover_begin_hovering time nfake true tp l) := by
  induction l with
  | nil =>
      intro tp h
      simpa [tp_unhover_begin_hovering] using h
  | cons a l ih =>
      intro tp h
      simp only [tp_unhover_begin_hovering]
      split_ifs <;>
        first
          | exact hist_inv_begin_reset orig tp a time h
          | exact ih _ (hist_inv_begin_reset orig tp a time h)
          | exact ih tp h
          | exact ih _ h

lemma hist_inv_end_loop (orig : Tp) (time nfake real : Nat) (l : List Nat) :
    ∀ tp, HistInv orig tp →
      HistInv orig (tp_unhover_pressure_end_loop time nfake real tp l) := by
  induction l with
  | nil =>
      intro tp h
      simpa [tp_unhover_pressure_end_loop] using h
  | cons a l ih =>
      intro tp h
      simp only [tp_unhover_pressure_end_loop]
      split_ifs
      · exact ih tp h
      · exact hist_inv_maybe_end orig tp a time h
      · exact ih _ (hist_inv_maybe_end orig tp a time h)

lemma hist_inv_unhover_pressure (tp : Tp) (time : Nat) :
    HistInv tp (tp_unhover_pressure tp time) := by
  simp only [tp_unhover_pressure]
  split_ifs <;>
    first
      | exact hist_inv_slots_fold tp _ time _ _ (hist_inv_refl tp)
      | exact hist_inv_end_loop tp time _ _ _ _
          (hist_inv_begin_loop tp time _ _ _
            (hist_inv_slots_fold tp _ time _ _ (hist_inv_refl tp)))
      | exact hist_inv_end_loop tp time _ _ _ _
          (hist_inv_slots_fold tp _ time _ _ (hist_inv_refl tp))
      | exact hist_inv_begin_loop tp time _ _ _
          (hist_inv_slots_fold tp _ time _ _ (hist_inv_refl tp))

lemma hist_inv_size_slot (orig tp : Tp) (time i : Nat) (h : HistInv orig tp) :
    HistInv orig (tp_unhover_size_slot time tp i) := by
  simp only [tp_unhover_size_slot]
  split_ifs <;>
    first
      | exact h
      | exact hist_inv_begin_reset orig tp i time h
      | exact hist_inv_maybe_end orig tp i time h

lemma hist_inv_unhover_size (tp : Tp) (time : Nat) :
    HistInv tp (tp_unhover_size tp time) := by
  unfold tp_unhover_size
  generalize List.range tp.num_slots = l
  have : ∀ (l : List Nat) (cur : Tp), HistInv tp cur →
      HistInv tp (l.foldl (tp_unhover_size_slot time) cur) := by
    intro l
    induction l with
    | nil => intro cur h; exact h
    | cons a l ih =>
        intro cur h
        exact ih _ (hist_inv_size_slot tp cur time a h)
  exact this l tp (hist_inv_refl tp)

/-- C5 counterexample: with BTN_TOUCH and BTN_TOOL_FINGER down, the
fake-finger hover resolver promotes the hovering touch to BEGIN without
resetting its motion history: the count stays 3. -/
theorem unhover_fake_touches_no_reset :
    (tp_get_touch exC5 0).state = .HOVERING ∧
    (tp_get_touch (tp_unhover_fake_touches exC5 0) 0).state = .BEGIN ∧
    (tp_get_touch (tp_unhover_fake_touches exC5 0) 0).history.count = 3 := by
  decide

/-- C5 (amended): the pressure-based and size-based hover resolvers reset
the motion history (count becomes 0) on every hovering touch they promote
to BEGIN; the fake-finger-based variant does not reset the history at the
begin.  (The dispatcher then relies on tp_need_motion_history_reset,
which reports true whenever nfingers_down changed, to reset all histories
later in the same frame.) -/
theorem unhover_begin_resets_history (tp : Tp) (time i : Nat) :
    ((tp_get_touch tp i).state = .HOVERING →
      (tp_get_touch (tp_unhover_pressure tp time) i).state = .BEGIN →
      (tp_get_touch (tp_unhover_pressure tp time) i).history.count = 0) ∧
    ((tp_get_touch tp i).state = .HOVERING →
      (tp_get_touch (tp_unhover_size tp time) i).state = .BEGIN →
      (tp_get_touch (tp_unhover_size tp time) i).history.count = 0) ∧
    (tp.nfingers_down ≠ tp.old_nfingers_down →
      (tp_need_motion_history_reset tp).1 = true) :=
  ⟨(hist_inv_unhover_pressure tp time).2 i,
   (hist_inv_unhover_size tp time).2 i,
   fun h => by simp [tp_need_motion_history_reset, h]⟩

/-- C5 witness: a dirty hovering touch with pressure above the high
threshold is begun by the pressure resolver with an empty history. -/
theorem unhover_begin_resets_history_witness :
    (tp_get_touch (tp_unhover_pressure tpW5 0) 0).history.count = 0 :=
  (unhover_begin_resets_history tpW5 0 0).1 (by decide) (by decide)

/-- C6 counterexample: on a device with the EVDEV_MODEL_TEST_DEVICE quirk
(non-Wacom), the reference interval is forced to tdelta itself, so the
irregular-frame guard tdelta > 2 * reference_interval can never fire and
the detector declares a jump even though the frame interval is 50 ms,
above the claimed 24 ms cutoff. -/
theorem detect_jumps_test_device_fires :
    60000 - (tp_motion_history_offset (tp_get_touch exC6 0) 0).time > 2 * ms2us 12 ∧
    (tp_detect_jumps exC6 0 60000).1 = true := by
  refine ⟨by decide, ?_⟩
  simp only [tp_detect_jumps]
  norm_num [exC6, tp_get_touch, tp_motion_history_offset, tp_history_offset_index,
    TOUCHPAD_HISTORY_LENGTH, evdev_device_unit_delta_to_mm, length_in_mm, ms2us]
  rw [show (14400 : ℝ) = 120 ^ 2 by norm_num,
    Real.sqrt_sq (by norm_num : (0 : ℝ) ≤ 120)]
  norm_num

/-- C6 (amended): on a non-Wacom, non-test device the jump detector returns false
when the history is empty, returns false when the frame interval tdelta
exceeds twice the 12 ms reference interval or is zero, and otherwise
declares a jump exactly when the time-normalised delta
Δmm = hypot(dx, dy) in mm × (12 ms / Δt) exceeds 20 mm or exceeds the
previous frame's stored delta by more than 7 mm. -/
theorem detect_jumps_thresholds (tp : Tp) (i time : Nat)
    (hw : tp.model_wacom = false) (ht : tp.model_test_device = false) :
    ((tp_get_touch tp i).history.count = 0 →
      (tp_detect_jumps tp i time).1 = false) ∧
    ((tp_get_touch tp i).history.count ≠ 0 →
     (time - (tp_motion_history_offset (tp_get_touch tp i) 0).time > 2 * ms2us 12 ∨
      time - (tp_motion_history_offset (tp_get_touch tp i) 0).time = 0) →
      (tp_detect_jumps tp i time).1 = false) ∧
    ((tp_get_touch tp i).history.count ≠ 0 →
     time - (tp_motion_history_offset (tp_get_touch tp i) 0).time ≤ 2 * ms2us 12 →
     time - (tp_motion_history_offset (tp_get_touch tp i) 0).time ≠ 0 →
      ((tp_detect_jumps tp i time).1 = true ↔
        (let t := tp_get_touch tp i
         let last := tp_motion_history_offset t 0
         let tdelta := time - last.time
         let dmm : ℝ :=
           length_in_mm (evdev_device_unit_delta_to_mm tp
             ⟨|t.point.x - last.point.x|, |t.point.y - last.point.y|⟩) *
             ((ms2us 12 : Nat) : ℝ) / ((tdelta : Nat) : ℝ)
         dmm > 20 ∨ dmm - t.jumps.last_delta_mm > 7))) := by
  refine ⟨?_, ?_, ?_⟩
  · intro h0
    simp [tp_detect_jumps, hw, h0]
  · intro h0 hg
    simp only [tp_detect_jumps, hw, ht, Bool.false_eq_true, if_false, if_neg h0]
    rw [if_pos hg]
  · intro h0 hle hne
    simp only [tp_detect_jumps, hw, ht, Bool.false_eq_true, if_false, if_neg h0]
    rw [if_neg (not_or.mpr ⟨not_lt.mpr hle, hne⟩)]
    simp only [decide_eq_true_eq]

/-- C6 witness: a 120 mm single-frame delta over a regular 12 ms interval
is declared a jump. -/
theorem detect_jumps_thresholds_witness :
    (tp_detect_jumps tpW6 0 62000).1 = true := by
  have h := (detect_jumps_thresholds tpW6 0 62000 (by decide) (by decide)).2.2
    (by decide) (by decide) (by decide)
  rw [h]
  refine Or.inl ?_
  norm_num [tp_get_touch, tpW6, tp_motion_history_offset, tp_history_offset_index,
    TOUCHPAD_HISTORY_LENGTH, evdev_device_unit_delta_to_mm, length_in_mm, ms2us]
  rw [show (14400 : ℝ) = 120 ^ 2 by norm_num,
    Real.sqrt_sq (by norm_num : (0 : ℝ) ≤ 120)]
  norm_num

end Touchpad
